import Mathlib

/-!
Periodical uplink relay-TX example: shallow embedding and verification.

Source embedded: `src/lbm_examples/main_examples/main_periodical_uplink_relay_tx.c`.

The program is a bare-metal control loop.  Its observable behaviour is the
sequence of calls it makes to its collaborators (wireless stack, HAL, ADC,
trace output).  The embedding therefore threads a `State` that holds the
file-scope variables of the C file together with the list of calls issued so
far, oldest first.  Values returned by collaborators are supplied as explicit
inputs of each function (oracle arguments).

Machine integers are natural numbers reduced modulo `2 ^ w` where the C type
has width `w`.
-/

namespace RelayTx

/-! ## Collaborator vocabulary -/

/-- Return codes of the wireless stack API (`smtc_modem_return_code_t`), the
eight codes tested or implied by `ASSERT_SMTC_MODEM_RC`. -/
inductive smtc_modem_return_code_t
  | SMTC_MODEM_RC_OK
  | SMTC_MODEM_RC_NOT_INIT
  | SMTC_MODEM_RC_INVALID
  | SMTC_MODEM_RC_BUSY
  | SMTC_MODEM_RC_FAIL
  | SMTC_MODEM_RC_NO_TIME
  | SMTC_MODEM_RC_INVALID_STACK_ID
  | SMTC_MODEM_RC_NO_EVENT
  deriving DecidableEq, Repr

open smtc_modem_return_code_t

/-- Event kinds switched on by `modem_event_callback`, one constructor per
`case` label of the source; `OTHER n` is any event type value that reaches the
`default` label.  The two kinds whose handler inspects `event_data` carry the
inspected field. -/
inductive smtc_modem_event_type_t
  | SMTC_MODEM_EVENT_RESET
  | SMTC_MODEM_EVENT_ALARM
  | SMTC_MODEM_EVENT_JOINED
  | SMTC_MODEM_EVENT_TXDONE
  | SMTC_MODEM_EVENT_DOWNDATA
  | SMTC_MODEM_EVENT_JOINFAIL
  | SMTC_MODEM_EVENT_ALCSYNC_TIME
  | SMTC_MODEM_EVENT_LINK_CHECK
  | SMTC_MODEM_EVENT_CLASS_B_PING_SLOT_INFO
  | SMTC_MODEM_EVENT_CLASS_B_STATUS
  | SMTC_MODEM_EVENT_LORAWAN_MAC_TIME
  | SMTC_MODEM_EVENT_LORAWAN_FUOTA_DONE (successful : Bool)
  | SMTC_MODEM_EVENT_NO_MORE_MULTICAST_SESSION_CLASS_C
  | SMTC_MODEM_EVENT_NO_MORE_MULTICAST_SESSION_CLASS_B
  | SMTC_MODEM_EVENT_NEW_MULTICAST_SESSION_CLASS_C
  | SMTC_MODEM_EVENT_NEW_MULTICAST_SESSION_CLASS_B
  | SMTC_MODEM_EVENT_FIRMWARE_MANAGEMENT (reboot_immediately : Bool)
  | SMTC_MODEM_EVENT_STREAM_DONE
  | SMTC_MODEM_EVENT_UPLOAD_DONE
  | SMTC_MODEM_EVENT_DM_SET_CONF
  | SMTC_MODEM_EVENT_MUTE
  | SMTC_MODEM_EVENT_RELAY_TX_DYNAMIC
  | SMTC_MODEM_EVENT_RELAY_TX_MODE
  | SMTC_MODEM_EVENT_RELAY_TX_SYNC
  | OTHER (event_type : Nat)
  deriving DecidableEq, Repr

open smtc_modem_event_type_t

/-- Severity of a trace line: which `SMTC_HAL_TRACE_*` macro emits it. -/
inductive Severity
  | ERROR
  | WARNING
  | INFO
  | MSG_COLOR
  | PRINTF
  | ARRAY
  deriving DecidableEq, Repr

/-- The credential buffers of the C file that are handed to the stack. -/
inductive Credential
  | user_dev_eui
  | user_join_eui
  | user_gen_app_key
  | user_app_key
  | chip_eui
  | chip_pin
  deriving DecidableEq, Repr

/-- Text of a trace line.  `rc_name rc` is `xstr( rc )` as printed by
`ASSERT_SMTC_MODEM_RC`; `event_received e` is the line printed first by the
`case` of event `e`; the remaining constructors are the other lines of the
file. -/
inductive TraceText
  | rc_name (rc : smtc_modem_return_code_t)
  | modem_event_callback
  | event_received (e : smtc_modem_event_type_t)
  | unknown_event (event_type : Nat)
  | modem_is_now_joined
  | transmission_done
  | data_received_on_port (fport : Nat)
  | received_payload (payload : List Nat)
  | credential (c : Credential)
  | fuota_successful
  | fuota_fail
  | relay_tx_dynamic_mode (is_enable : Bool)
  | relay_tx_activation_mode (mode : Nat)
  | relay_tx_sync_status (sync : Nat)
  | button_pushed
  | example_is_starting
  deriving DecidableEq, Repr

/-- GPIO pins named in the file. -/
inductive Pin
  | PA_13
  | EXTI_BUTTON
  deriving DecidableEq, Repr

/-- One call made by the program to a collaborator, with the arguments the
source passes. -/
inductive Call
  | hal_mcu_disable_irq
  | hal_mcu_enable_irq
  | hal_watchdog_reload
  | hal_mcu_set_sleep_for_ms (milliseconds : Nat)
  | smtc_modem_run_engine
  | smtc_modem_is_irq_flag_pending
  | smtc_modem_get_status (stack_id : Nat)
  | smtc_modem_get_event
  | smtc_modem_set_deveui (stack_id : Nat) (key : Credential)
  | smtc_modem_set_joineui (stack_id : Nat) (key : Credential)
  | smtc_modem_set_appkey (stack_id : Nat) (key : Credential)
  | smtc_modem_set_nwkkey (stack_id : Nat) (key : Credential)
  | smtc_modem_get_chip_eui (stack_id : Nat) (buf : Credential)
  | smtc_modem_get_pin (stack_id : Nat) (buf : Credential)
  | smtc_modem_set_region (stack_id : Nat)
  | smtc_modem_join_network (stack_id : Nat)
  | smtc_modem_relay_tx_enable (stack_id : Nat) (arg : Nat)
  | smtc_modem_alarm_start_timer (alarm_timer_in_s : Nat)
  | smtc_modem_get_downlink_data
  | smtc_modem_relay_tx_is_enable (stack_id : Nat)
  | smtc_modem_relay_tx_get_activation_mode (stack_id : Nat)
  | smtc_modem_relay_tx_get_sync_status (stack_id : Nat)
  | smtc_modem_request_uplink (stack_id : Nat) (f_port : Nat) (confirmed : Bool)
      (payload : List Nat) (payload_length : Nat)
  | smtc_modem_hal_reset_mcu
  | smtc_modem_hal_get_time_in_ms
  | hal_gpio_set_value (pin : Pin) (value : Nat)
  | HAL_Delay (ms : Nat)
  | HAL_ADC_Start
  | HAL_ADC_PollForConversion (timeout : Nat)
  | HAL_ADC_GetValue
  | HAL_ADC_Stop
  | hal_trace_print_var (value : Nat)
  | SMTC_HAL_TRACE (severity : Severity) (text : TraceText)
  deriving DecidableEq, Repr

/-! ## Constants and macros -/

/-- Macro `MIN( a, b )`: `( ( a ) < ( b ) ) ? ( a ) : ( b )`. -/
def MIN (a b : Nat) : Nat := if a < b then a else b

/-- Constant `STACK_ID`, defined as 0. -/
def STACK_ID : Nat := 0

/-- Constant `WATCHDOG_RELOAD_PERIOD_MS`, defined as 20000. -/
def WATCHDOG_RELOAD_PERIOD_MS : Nat := 20000

/-- Constant `PERIODICAL_UPLINK_DELAY_S`, 1800 unless the build overrides it. -/
def PERIODICAL_UPLINK_DELAY_S : Nat := 1800

/-- Value of a `uint32_t` after conversion to `int32_t` (two's complement). -/
def int32_of_uint32 (x : Nat) : Int :=
  if x % 2 ^ 32 < 2 ^ 31 then ((x % 2 ^ 32 : Nat) : Int) else ((x % 2 ^ 32 : Nat) : Int) - 2 ^ 32

/-- Subtraction of two `uint32_t` values, wrapping modulo `2 ^ 32`. -/
def uint32_sub (a b : Nat) : Nat := (a % 2 ^ 32 + (2 ^ 32 - b % 2 ^ 32)) % 2 ^ 32

/-! ## Program state -/

/-- The file-scope and function-static variables of the C file, the reset
latch of the MCU, and the calls issued so far (oldest first). -/
structure State where
  /-- Variable `static volatile bool user_button_is_press`. -/
  user_button_is_press : Bool
  /-- Variable `static uint32_t last_press_timestamp_ms` of `user_button_callback`. -/
  last_press_timestamp_ms : Nat
  /-- Variable `static uint16_t readValue`. -/
  readValue : Nat
  /-- Variable `static uint8_t rx_payload[]`, the first `rx_payload_size` bytes. -/
  rx_payload : List Nat
  /-- Variable `static uint8_t rx_payload_size`. -/
  rx_payload_size : Nat
  /-- Field `rx_metadata.fport`. -/
  rx_fport : Nat
  /-- Variable `static uint8_t rx_remaining`. -/
  rx_remaining : Nat
  /-- Set once `smtc_modem_hal_reset_mcu` has been called. -/
  mcu_reset : Bool
  /-- Calls issued so far, oldest first. -/
  trace : List Call
  deriving DecidableEq, Repr

/-- State at program start: the initialisers of the C file, no call issued. -/
def State.init : State :=
  { user_button_is_press := false
    last_press_timestamp_ms := 0
    readValue := 0
    rx_payload := []
    rx_payload_size := 0
    rx_fport := 0
    rx_remaining := 0
    mcu_reset := false
    trace := [] }

/-- Append calls to the trace. -/
def State.emit (s : State) (cs : List Call) : State :=
  { s with trace := s.trace ++ cs }

/-! ## `ASSERT_SMTC_MODEM_RC` -/

/-- The trace lines printed by `ASSERT_SMTC_MODEM_RC` for return code `rc`:
the `if` / `else if` chain of the macro, in source order.  No branch matches
`SMTC_MODEM_RC_OK`. -/
def ASSERT_SMTC_MODEM_RC_lines (rc : smtc_modem_return_code_t) : List Call :=
  if rc = SMTC_MODEM_RC_NOT_INIT then
    [Call.SMTC_HAL_TRACE Severity.ERROR (TraceText.rc_name SMTC_MODEM_RC_NOT_INIT)]
  else if rc = SMTC_MODEM_RC_INVALID then
    [Call.SMTC_HAL_TRACE Severity.ERROR (TraceText.rc_name SMTC_MODEM_RC_INVALID)]
  else if rc = SMTC_MODEM_RC_BUSY then
    [Call.SMTC_HAL_TRACE Severity.ERROR (TraceText.rc_name SMTC_MODEM_RC_BUSY)]
  else if rc = SMTC_MODEM_RC_FAIL then
    [Call.SMTC_HAL_TRACE Severity.ERROR (TraceText.rc_name SMTC_MODEM_RC_FAIL)]
  else if rc = SMTC_MODEM_RC_NO_TIME then
    [Call.SMTC_HAL_TRACE Severity.WARNING (TraceText.rc_name SMTC_MODEM_RC_NO_TIME)]
  else if rc = SMTC_MODEM_RC_INVALID_STACK_ID then
    [Call.SMTC_HAL_TRACE Severity.ERROR (TraceText.rc_name SMTC_MODEM_RC_INVALID_STACK_ID)]
  else if rc = SMTC_MODEM_RC_NO_EVENT then
    [Call.SMTC_HAL_TRACE Severity.INFO (TraceText.rc_name SMTC_MODEM_RC_NO_EVENT)]
  else
    []

/-- Statement `ASSERT_SMTC_MODEM_RC( f( ... ) )`: the call `f` is issued, it
returns `rc`, the macro prints its line (if any), and control falls through to
the next statement. -/
def ASSERT_SMTC_MODEM_RC (call : Call) (rc : smtc_modem_return_code_t) (s : State) : State :=
  s.emit (call :: ASSERT_SMTC_MODEM_RC_lines rc)

/-! ## Input debouncer: `user_button_callback` -/

/-- The debounce test of `user_button_callback`:
`( int32_t )( smtc_modem_hal_get_time_in_ms( ) - last_press_timestamp_ms ) > 500`
with `now` the value returned by the clock. -/
def debounce_accepts (now last_press_timestamp_ms : Nat) : Bool :=
  decide (int32_of_uint32 (uint32_sub now last_press_timestamp_ms) > 500)

/-- Function `user_button_callback`.  The clock is read once in the test
(`t_test`) and, when the test succeeds, a second time for the assignment
(`t_store`). -/
def user_button_callback (t_test t_store : Nat) (s : State) : State :=
  let s1 := s.emit [Call.SMTC_HAL_TRACE Severity.INFO TraceText.button_pushed,
                    Call.smtc_modem_hal_get_time_in_ms]
  if debounce_accepts t_test s1.last_press_timestamp_ms then
    { s1 with
      last_press_timestamp_ms := t_store % 2 ^ 32
      user_button_is_press := true
      trace := s1.trace ++ [Call.smtc_modem_hal_get_time_in_ms] }
  else
    s1

/-- A falling edge seen at one clock instant `t`: both clock reads of
`user_button_callback` return `t`. -/
def button_edge (t : Nat) (s : State) : State := user_button_callback t t s

/-- Whether an edge at clock time `t` is accepted in state `s`, that is,
whether `user_button_callback` takes its `if` branch. -/
def edge_accepted (t : Nat) (s : State) : Bool :=
  debounce_accepts t s.last_press_timestamp_ms

/-! ## Uplink payload pipeline: `send_uplink_moisture_on_port` -/

/-- The two payload bytes built from `readValue`:
`buff[0] = (readValue >> 8) & 0xFF; buff[1] = readValue & 0xFF;`. -/
def moisture_payload (readValue : Nat) : List Nat :=
  [((readValue >>> 8) &&& 0xFF) % 2 ^ 8, (readValue &&& 0xFF) % 2 ^ 8]

/-- Big-endian decoding of a two-byte payload, as done by a receiver. -/
def decode_big_endian : List Nat → Nat
  | [b0, b1] => b0 * 256 + b1
  | _ => 0

/-- Function `send_uplink_moisture_on_port( port )`.  `adc_value` is the value
returned by `HAL_ADC_GetValue` (a `uint32_t`, stored into the `uint16_t`
`readValue`); `rc` is the code returned by `smtc_modem_request_uplink`. -/
def send_uplink_moisture_on_port (port : Nat) (adc_value : Nat)
    (rc : smtc_modem_return_code_t) (s : State) : State :=
  let s1 := s.emit [Call.hal_gpio_set_value Pin.PA_13 1,
                    Call.HAL_Delay 5000,
                    Call.HAL_ADC_Start,
                    Call.HAL_ADC_PollForConversion 100,
                    Call.HAL_ADC_GetValue]
  let s2 := { s1 with readValue := adc_value % 2 ^ 16 }
  let s3 := s2.emit [Call.hal_trace_print_var s2.readValue,
                     Call.HAL_ADC_Stop,
                     Call.hal_gpio_set_value Pin.PA_13 0]
  ASSERT_SMTC_MODEM_RC
    (Call.smtc_modem_request_uplink STACK_ID (port % 2 ^ 8) false
      (moisture_payload s3.readValue) 2)
    rc s3

/-! ## Event dispatcher: `modem_event_callback` -/

/-- Build configuration: the compile-time switch that selects the credential
path, and the value of the status bit `SMTC_MODEM_STATUS_JOINED`, which is
declared in a header of the stack and is taken here as a parameter. -/
structure Config where
  /-- Whether `USE_LR11XX_CREDENTIALS` is defined. -/
  USE_LR11XX_CREDENTIALS : Bool
  /-- Value of `SMTC_MODEM_STATUS_JOINED`. -/
  SMTC_MODEM_STATUS_JOINED : Nat
  deriving DecidableEq, Repr

/-- Downlink data written by `smtc_modem_get_downlink_data` into the `rx_*`
variables. -/
structure Downlink where
  payload : List Nat
  size : Nat
  fport : Nat
  remaining : Nat
  deriving DecidableEq, Repr

/-- Everything the collaborators return during one pass of the `do ... while`
body of `modem_event_callback`: what `smtc_modem_get_event` returns and writes
into `current_event` and `event_pending_count`, and the result of every call
the handler of that event may make. -/
structure EventAnswers where
  rc_get_event : smtc_modem_return_code_t
  event_type : smtc_modem_event_type_t
  event_pending_count : Nat
  rc_set_deveui : smtc_modem_return_code_t
  rc_set_joineui : smtc_modem_return_code_t
  rc_set_appkey : smtc_modem_return_code_t
  rc_set_nwkkey : smtc_modem_return_code_t
  rc_get_chip_eui : smtc_modem_return_code_t
  rc_get_pin : smtc_modem_return_code_t
  rc_set_region : smtc_modem_return_code_t
  rc_join_network : smtc_modem_return_code_t
  rc_relay_tx_enable : smtc_modem_return_code_t
  adc_value : Nat
  rc_request_uplink : smtc_modem_return_code_t
  rc_alarm_start_timer : smtc_modem_return_code_t
  rc_get_downlink_data : smtc_modem_return_code_t
  downlink : Option Downlink
  rc_relay_query : smtc_modem_return_code_t
  relay_is_enable : Bool
  relay_mode : Nat
  relay_sync : Nat
  deriving DecidableEq, Repr

/-- Answers of a stack on which every call succeeds: event `e` is delivered
with `pending` events left, the sensor reads `adc`. -/
def EventAnswers.ok (e : smtc_modem_event_type_t) (pending adc : Nat) : EventAnswers :=
  { rc_get_event := SMTC_MODEM_RC_OK
    event_type := e
    event_pending_count := pending
    rc_set_deveui := SMTC_MODEM_RC_OK
    rc_set_joineui := SMTC_MODEM_RC_OK
    rc_set_appkey := SMTC_MODEM_RC_OK
    rc_set_nwkkey := SMTC_MODEM_RC_OK
    rc_get_chip_eui := SMTC_MODEM_RC_OK
    rc_get_pin := SMTC_MODEM_RC_OK
    rc_set_region := SMTC_MODEM_RC_OK
    rc_join_network := SMTC_MODEM_RC_OK
    rc_relay_tx_enable := SMTC_MODEM_RC_OK
    adc_value := adc
    rc_request_uplink := SMTC_MODEM_RC_OK
    rc_alarm_start_timer := SMTC_MODEM_RC_OK
    rc_get_downlink_data := SMTC_MODEM_RC_OK
    downlink := none
    rc_relay_query := SMTC_MODEM_RC_OK
    relay_is_enable := false
    relay_mode := 0
    relay_sync := 0 }

/-- Answers of a stack on which every call of the pass returns `rc`. -/
def EventAnswers.all (rc : smtc_modem_return_code_t) (e : smtc_modem_event_type_t)
    (pending adc : Nat) : EventAnswers :=
  { EventAnswers.ok e pending adc with
    rc_get_event := rc
    rc_set_deveui := rc
    rc_set_joineui := rc
    rc_set_appkey := rc
    rc_set_nwkkey := rc
    rc_get_chip_eui := rc
    rc_get_pin := rc
    rc_set_region := rc
    rc_join_network := rc
    rc_relay_tx_enable := rc
    rc_request_uplink := rc
    rc_alarm_start_timer := rc
    rc_get_downlink_data := rc
    rc_relay_query := rc }

/-- The credential block of the `SMTC_MODEM_EVENT_RESET` case: the
`#if !defined( USE_LR11XX_CREDENTIALS )` branch or its `#else` branch. -/
def provision_credentials (cfg : Config) (a : EventAnswers) (s : State) : State :=
  if cfg.USE_LR11XX_CREDENTIALS = false then
    let s1 := ASSERT_SMTC_MODEM_RC
      (Call.smtc_modem_set_deveui STACK_ID Credential.user_dev_eui) a.rc_set_deveui s
    let s2 := ASSERT_SMTC_MODEM_RC
      (Call.smtc_modem_set_joineui STACK_ID Credential.user_join_eui) a.rc_set_joineui s1
    let s3 := ASSERT_SMTC_MODEM_RC
      (Call.smtc_modem_set_appkey STACK_ID Credential.user_gen_app_key) a.rc_set_appkey s2
    ASSERT_SMTC_MODEM_RC
      (Call.smtc_modem_set_nwkkey STACK_ID Credential.user_app_key) a.rc_set_nwkkey s3
  else
    let s1 := ASSERT_SMTC_MODEM_RC
      (Call.smtc_modem_get_chip_eui STACK_ID Credential.chip_eui) a.rc_get_chip_eui s
    let s2 := s1.emit [Call.SMTC_HAL_TRACE Severity.ARRAY (TraceText.credential Credential.chip_eui)]
    let s3 := ASSERT_SMTC_MODEM_RC
      (Call.smtc_modem_get_pin STACK_ID Credential.chip_pin) a.rc_get_pin s2
    s3.emit [Call.SMTC_HAL_TRACE Severity.ARRAY (TraceText.credential Credential.chip_pin)]

/-- Modelled from the spec: `smtc_modem_hal_reset_mcu` belongs to the HAL and
is not in the source; it "triggers a full device reset, bypassing normal loop
continuation".  The call is recorded and the reset latch is set: nothing runs
after it. -/
def smtc_modem_hal_reset_mcu (s : State) : State :=
  { s with mcu_reset := true, trace := s.trace ++ [Call.smtc_modem_hal_reset_mcu] }

/-- A trace line at `INFO` severity. -/
def info (t : TraceText) : Call := Call.SMTC_HAL_TRACE Severity.INFO t

/-- The `switch( current_event.event_type )` of `modem_event_callback`: the
handler of one fetched event, one match arm per `case` label in source
order. -/
def handle_event (cfg : Config) (a : EventAnswers) (s : State) : State :=
  match a.event_type with
  | SMTC_MODEM_EVENT_RESET =>
    let s1 := s.emit [info (TraceText.event_received SMTC_MODEM_EVENT_RESET)]
    let s2 := provision_credentials cfg a s1
    let s3 := ASSERT_SMTC_MODEM_RC (Call.smtc_modem_set_region STACK_ID) a.rc_set_region s2
    let s4 := ASSERT_SMTC_MODEM_RC (Call.smtc_modem_join_network STACK_ID) a.rc_join_network s3
    ASSERT_SMTC_MODEM_RC (Call.smtc_modem_relay_tx_enable STACK_ID 0) a.rc_relay_tx_enable s4
  | SMTC_MODEM_EVENT_ALARM =>
    let s1 := s.emit [info (TraceText.event_received SMTC_MODEM_EVENT_ALARM)]
    let s2 := send_uplink_moisture_on_port 101 a.adc_value a.rc_request_uplink s1
    ASSERT_SMTC_MODEM_RC (Call.smtc_modem_alarm_start_timer PERIODICAL_UPLINK_DELAY_S)
      a.rc_alarm_start_timer s2
  | SMTC_MODEM_EVENT_JOINED =>
    let s1 := s.emit [info (TraceText.event_received SMTC_MODEM_EVENT_JOINED),
                      info TraceText.modem_is_now_joined]
    let s2 := send_uplink_moisture_on_port 101 a.adc_value a.rc_request_uplink s1
    ASSERT_SMTC_MODEM_RC (Call.smtc_modem_alarm_start_timer PERIODICAL_UPLINK_DELAY_S)
      a.rc_alarm_start_timer s2
  | SMTC_MODEM_EVENT_TXDONE =>
    s.emit [info (TraceText.event_received SMTC_MODEM_EVENT_TXDONE),
            info TraceText.transmission_done]
  | SMTC_MODEM_EVENT_DOWNDATA =>
    let s1 := s.emit [info (TraceText.event_received SMTC_MODEM_EVENT_DOWNDATA)]
    let s2 := ASSERT_SMTC_MODEM_RC Call.smtc_modem_get_downlink_data a.rc_get_downlink_data s1
    let s3 : State :=
      match a.downlink with
      | some d =>
        { s2 with
          rx_payload := d.payload
          rx_payload_size := d.size % 2 ^ 8
          rx_fport := d.fport % 2 ^ 8
          rx_remaining := d.remaining % 2 ^ 8 }
      | none => s2
    s3.emit [Call.SMTC_HAL_TRACE Severity.PRINTF (TraceText.data_received_on_port s3.rx_fport),
             Call.SMTC_HAL_TRACE Severity.ARRAY
               (TraceText.received_payload (s3.rx_payload.take s3.rx_payload_size))]
  | SMTC_MODEM_EVENT_LORAWAN_MAC_TIME =>
    s.emit [Call.SMTC_HAL_TRACE Severity.WARNING
              (TraceText.event_received SMTC_MODEM_EVENT_LORAWAN_MAC_TIME)]
  | SMTC_MODEM_EVENT_LORAWAN_FUOTA_DONE status =>
    if status = true then
      s.emit [info TraceText.fuota_successful]
    else
      s.emit [Call.SMTC_HAL_TRACE Severity.WARNING TraceText.fuota_fail]
  | SMTC_MODEM_EVENT_FIRMWARE_MANAGEMENT reboot_immediately =>
    let s1 := s.emit [info (TraceText.event_received (SMTC_MODEM_EVENT_FIRMWARE_MANAGEMENT
                        reboot_immediately))]
    if reboot_immediately = true then
      smtc_modem_hal_reset_mcu s1
    else
      s1
  | SMTC_MODEM_EVENT_RELAY_TX_DYNAMIC =>
    let s1 := s.emit [info (TraceText.event_received SMTC_MODEM_EVENT_RELAY_TX_DYNAMIC),
                      Call.smtc_modem_relay_tx_is_enable STACK_ID]
    if a.rc_relay_query = SMTC_MODEM_RC_OK then
      s1.emit [info (TraceText.relay_tx_dynamic_mode a.relay_is_enable)]
    else
      s1
  | SMTC_MODEM_EVENT_RELAY_TX_MODE =>
    let s1 := s.emit [info (TraceText.event_received SMTC_MODEM_EVENT_RELAY_TX_MODE),
                      Call.smtc_modem_relay_tx_get_activation_mode STACK_ID]
    if a.rc_relay_query = SMTC_MODEM_RC_OK then
      s1.emit [info (TraceText.relay_tx_activation_mode a.relay_mode)]
    else
      s1
  | SMTC_MODEM_EVENT_RELAY_TX_SYNC =>
    let s1 := s.emit [info (TraceText.event_received SMTC_MODEM_EVENT_RELAY_TX_SYNC),
                      Call.smtc_modem_relay_tx_get_sync_status STACK_ID]
    if a.rc_relay_query = SMTC_MODEM_RC_OK then
      s1.emit [info (TraceText.relay_tx_sync_status a.relay_sync)]
    else
      s1
  | OTHER event_type =>
    s.emit [Call.SMTC_HAL_TRACE Severity.ERROR (TraceText.unknown_event event_type)]
  | e =>
    -- JOINFAIL, ALCSYNC_TIME, LINK_CHECK, CLASS_B_PING_SLOT_INFO, CLASS_B_STATUS,
    -- the four multicast session kinds, STREAM_DONE, UPLOAD_DONE, DM_SET_CONF, MUTE:
    -- one INFO line and `break`.
    s.emit [info (TraceText.event_received e)]

/-- The `do ... while( event_pending_count > 0 )` loop of
`modem_event_callback`.  The list holds, in order, the answers of the stack to
the successive passes of the body; `none` means that the list ended while the
loop was still asking for an event.  The loop is left at once when the handler
has reset the MCU (see `smtc_modem_hal_reset_mcu`). -/
def modem_event_callback_loop (cfg : Config) : List EventAnswers → State → Option State
  | [], _ => none
  | a :: rest, s =>
    let s1 := ASSERT_SMTC_MODEM_RC Call.smtc_modem_get_event a.rc_get_event s
    let s2 := handle_event cfg a s1
    if s2.mcu_reset = true then some s2
    else if a.event_pending_count % 2 ^ 8 > 0 then modem_event_callback_loop cfg rest s2
    else some s2

/-- Function `modem_event_callback`. -/
def modem_event_callback (cfg : Config) (answers : List EventAnswers) (s : State) :
    Option State :=
  modem_event_callback_loop cfg answers
    (s.emit [Call.SMTC_HAL_TRACE Severity.MSG_COLOR TraceText.modem_event_callback])

/-! ## Main loop of `main_periodical_uplink_relay_tx` -/

/-- Lines 268-282, "Check button": the test of `user_button_is_press`, its
clearing, the status query and the conditional uplink on port 102.
`status_mask` is the mask written by `smtc_modem_get_status`. -/
def check_button (cfg : Config) (status_mask adc_value : Nat)
    (rc_request_uplink : smtc_modem_return_code_t) (s : State) : State :=
  if s.user_button_is_press = true then
    let s1 := { s with user_button_is_press := false }
    let s2 := s1.emit [Call.smtc_modem_get_status STACK_ID]
    if (status_mask % 2 ^ 32) &&& cfg.SMTC_MODEM_STATUS_JOINED = cfg.SMTC_MODEM_STATUS_JOINED then
      send_uplink_moisture_on_port 102 adc_value rc_request_uplink s2
    else
      s2
  else
    s

/-- Lines 287-295, the sleep gate: the critical section that re-reads the
flag and the stack's pending-interrupt status and decides whether to sleep.
The `&&` is short-circuit: the stack is asked only when the flag is false. -/
def sleep_gate (sleep_time_ms : Nat) (irq_flag_pending : Bool) (s : State) : State :=
  let s1 := s.emit [Call.hal_mcu_disable_irq]
  let s2 :=
    if s1.user_button_is_press = false then
      let s1a := s1.emit [Call.smtc_modem_is_irq_flag_pending]
      if irq_flag_pending = false then
        s1a.emit [Call.hal_watchdog_reload,
                  Call.hal_mcu_set_sleep_for_ms (MIN (sleep_time_ms % 2 ^ 32)
                    WATCHDOG_RELOAD_PERIOD_MS)]
      else
        s1a
    else
      s1
  s2.emit [Call.hal_watchdog_reload, Call.hal_mcu_enable_irq]

/-- A burst of button interrupts served while interrupts are enabled; each
element gives the two clock readings of one run of `user_button_callback`. -/
def serve_button_irqs : List (Nat × Nat) → State → State
  | [], s => s
  | (t_test, t_store) :: rest, s => serve_button_irqs rest (user_button_callback t_test t_store s)

/-- What the collaborators and the button do during one iteration of the
`while( 1 )` loop. -/
structure IterationInputs where
  /-- Button interrupts served before the flag is tested at line 269. -/
  irqs_before_check : List (Nat × Nat)
  /-- Mask written by `smtc_modem_get_status`. -/
  status_mask : Nat
  /-- Value returned by `HAL_ADC_GetValue` for the button uplink. -/
  adc_value : Nat
  /-- Code returned by `smtc_modem_request_uplink` for the button uplink. -/
  rc_request_uplink : smtc_modem_return_code_t
  /-- Button interrupts served between the button check and the engine. -/
  irqs_before_engine : List (Nat × Nat)
  /-- Whether `smtc_modem_run_engine` invokes the registered
  `modem_event_callback`, and the answers of the stack during that run. -/
  engine_events : Option (List EventAnswers)
  /-- Value returned by `smtc_modem_run_engine`. -/
  sleep_time_ms : Nat
  /-- Button interrupts served after the engine, before `hal_mcu_disable_irq`. -/
  irqs_before_gate : List (Nat × Nat)
  /-- Value returned by `smtc_modem_is_irq_flag_pending`. -/
  irq_flag_pending : Bool

/-- Modelled from the spec: `smtc_modem_run_engine` is the stack's scheduling
step and is not in the source; it runs the callback registered with
`smtc_modem_init` when events are queued, and returns a recommended sleep
duration (the field `sleep_time_ms` of the iteration's inputs). -/
def run_engine (cfg : Config) (engine_events : Option (List EventAnswers)) (s : State) :
    Option State :=
  let s1 := s.emit [Call.smtc_modem_run_engine]
  match engine_events with
  | none => some s1
  | some answers => modem_event_callback cfg answers s1

/-- State in which the sleep gate of the iteration is entered: `none` when the
engine's callback run is not covered by the inputs, `some s` otherwise (with
`s.mcu_reset` set when the callback reset the MCU). -/
def state_at_gate (cfg : Config) (i : IterationInputs) (s : State) : Option State :=
  let s1 := serve_button_irqs i.irqs_before_check s
  let s2 := check_button cfg i.status_mask i.adc_value i.rc_request_uplink s1
  let s3 := serve_button_irqs i.irqs_before_engine s2
  match run_engine cfg i.engine_events s3 with
  | none => none
  | some s4 => if s4.mcu_reset = true then some s4 else some (serve_button_irqs i.irqs_before_gate s4)

/-- One iteration of the `while( 1 )` loop of
`main_periodical_uplink_relay_tx`.  Button interrupts are served at three
points where interrupts are enabled; between `hal_mcu_disable_irq` and
`hal_mcu_enable_irq` none is served. -/
def loop_iteration (cfg : Config) (i : IterationInputs) (s : State) : Option State :=
  match state_at_gate cfg i s with
  | none => none
  | some s5 => if s5.mcu_reset = true then some s5
               else some (sleep_gate i.sleep_time_ms i.irq_flag_pending s5)

/-- The calls issued by a step that takes `s` to `s'`: the part of the trace
of `s'` after the trace of `s`. -/
def issued (s s' : State) : List Call := s'.trace.drop s.trace.length

/-! ## Predicates on traces -/

/-- Whether a call is `hal_mcu_set_sleep_for_ms`. -/
def is_sleep : Call → Bool
  | Call.hal_mcu_set_sleep_for_ms _ => true
  | _ => false

/-- Step from `s` to `s'` only appends calls, none of which puts the MCU to
sleep. -/
def AwakeStep (s s' : State) : Prop :=
  ∃ cs : List Call, s'.trace = s.trace ++ cs ∧ ∀ c ∈ cs, is_sleep c = false

/-- Whether a call is a call of the wireless stack API (`smtc_modem_*`,
excluding the `smtc_modem_hal_*` functions and the trace output). -/
def is_stack_call : Call → Bool
  | Call.smtc_modem_run_engine => true
  | Call.smtc_modem_is_irq_flag_pending => true
  | Call.smtc_modem_get_status _ => true
  | Call.smtc_modem_get_event => true
  | Call.smtc_modem_set_deveui _ _ => true
  | Call.smtc_modem_set_joineui _ _ => true
  | Call.smtc_modem_set_appkey _ _ => true
  | Call.smtc_modem_set_nwkkey _ _ => true
  | Call.smtc_modem_get_chip_eui _ _ => true
  | Call.smtc_modem_get_pin _ _ => true
  | Call.smtc_modem_set_region _ => true
  | Call.smtc_modem_join_network _ => true
  | Call.smtc_modem_relay_tx_enable _ _ => true
  | Call.smtc_modem_alarm_start_timer _ => true
  | Call.smtc_modem_get_downlink_data => true
  | Call.smtc_modem_relay_tx_is_enable _ => true
  | Call.smtc_modem_relay_tx_get_activation_mode _ => true
  | Call.smtc_modem_relay_tx_get_sync_status _ => true
  | Call.smtc_modem_request_uplink _ _ _ _ _ => true
  | _ => false

/-- The stack API calls of a list of calls, in order. -/
def stack_calls (cs : List Call) : List Call := cs.filter is_stack_call

/-- The periods with which the alarm is armed by a list of calls: the
arguments of its `smtc_modem_alarm_start_timer` calls, in order. -/
def alarm_periods : List Call → List Nat
  | [] => []
  | Call.smtc_modem_alarm_start_timer p :: rest => p :: alarm_periods rest
  | _ :: rest => alarm_periods rest

/-- The calls of `send_uplink_moisture_on_port( port )` when the ADC returns
`adc_value` and `smtc_modem_request_uplink` returns `rc`, in source order. -/
def moisture_uplink_calls (port adc_value : Nat) (rc : smtc_modem_return_code_t) : List Call :=
  [Call.hal_gpio_set_value Pin.PA_13 1, Call.HAL_Delay 5000, Call.HAL_ADC_Start,
   Call.HAL_ADC_PollForConversion 100, Call.HAL_ADC_GetValue,
   Call.hal_trace_print_var (adc_value % 2 ^ 16), Call.HAL_ADC_Stop,
   Call.hal_gpio_set_value Pin.PA_13 0,
   Call.smtc_modem_request_uplink STACK_ID (port % 2 ^ 8) false
     (moisture_payload (adc_value % 2 ^ 16)) 2] ++ ASSERT_SMTC_MODEM_RC_lines rc

/-- Whether a call is a trace line (`SMTC_HAL_TRACE_*`). -/
def is_trace_line : Call → Bool
  | Call.SMTC_HAL_TRACE _ _ => true
  | _ => false

/-- The calls of a list other than trace lines, in order. -/
def actions (cs : List Call) : List Call := cs.filter (fun c => !is_trace_line c)

/-- A state with the trace lines removed from its call history: the
variables and every call made to the stack, the HAL and the ADC. -/
def State.without_trace_lines (s : State) : State :=
  { s with trace := actions s.trace }

/-- The same answers with every return code replaced by `SMTC_MODEM_RC_OK`. -/
def all_ok (a : EventAnswers) : EventAnswers :=
  { a with
    rc_get_event := SMTC_MODEM_RC_OK
    rc_set_deveui := SMTC_MODEM_RC_OK
    rc_set_joineui := SMTC_MODEM_RC_OK
    rc_set_appkey := SMTC_MODEM_RC_OK
    rc_set_nwkkey := SMTC_MODEM_RC_OK
    rc_get_chip_eui := SMTC_MODEM_RC_OK
    rc_get_pin := SMTC_MODEM_RC_OK
    rc_set_region := SMTC_MODEM_RC_OK
    rc_join_network := SMTC_MODEM_RC_OK
    rc_relay_tx_enable := SMTC_MODEM_RC_OK
    rc_request_uplink := SMTC_MODEM_RC_OK
    rc_alarm_start_timer := SMTC_MODEM_RC_OK
    rc_get_downlink_data := SMTC_MODEM_RC_OK
    rc_relay_query := SMTC_MODEM_RC_OK }

/-- Two states with the same variables and the same calls other than trace
lines. -/
def SameActions (s t : State) : Prop := s.without_trace_lines = t.without_trace_lines

/-- The calls of the credential block, by build configuration. -/
def credential_calls (cfg : Config) (a : EventAnswers) : List Call :=
  if cfg.USE_LR11XX_CREDENTIALS = false then
    Call.smtc_modem_set_deveui STACK_ID Credential.user_dev_eui ::
      (ASSERT_SMTC_MODEM_RC_lines a.rc_set_deveui ++
    Call.smtc_modem_set_joineui STACK_ID Credential.user_join_eui ::
      (ASSERT_SMTC_MODEM_RC_lines a.rc_set_joineui ++
    Call.smtc_modem_set_appkey STACK_ID Credential.user_gen_app_key ::
      (ASSERT_SMTC_MODEM_RC_lines a.rc_set_appkey ++
    Call.smtc_modem_set_nwkkey STACK_ID Credential.user_app_key ::
      ASSERT_SMTC_MODEM_RC_lines a.rc_set_nwkkey)))
  else
    Call.smtc_modem_get_chip_eui STACK_ID Credential.chip_eui ::
      (ASSERT_SMTC_MODEM_RC_lines a.rc_get_chip_eui ++
    Call.SMTC_HAL_TRACE Severity.ARRAY (TraceText.credential Credential.chip_eui) ::
    Call.smtc_modem_get_pin STACK_ID Credential.chip_pin ::
      (ASSERT_SMTC_MODEM_RC_lines a.rc_get_pin ++
    [Call.SMTC_HAL_TRACE Severity.ARRAY (TraceText.credential Credential.chip_pin)]))

/-- A list of answers on which the `do ... while` loop of
`modem_event_callback` drains a queue: every fetch but the last reports events
still pending, the last reports none. -/
def is_drain : List EventAnswers → Bool
  | [] => false
  | a :: rest => if a.event_pending_count % 2 ^ 8 > 0 then is_drain rest else rest.isEmpty

/-- Successive runs of `modem_event_callback`, one per element of `batches`,
as triggered by successive calls of the engine; nothing runs after an MCU
reset. -/
def run_callbacks (cfg : Config) : List (List EventAnswers) → State → Option State
  | [], s => some s
  | b :: rest, s =>
    match modem_event_callback cfg b s with
    | none => none
    | some s1 => if s1.mcu_reset = true then some s1 else run_callbacks cfg rest s1

/-! ## Concrete inputs -/

/-- Build used in the examples: fixed user credentials, `SMTC_MODEM_STATUS_JOINED = 1 << 3`. -/
def example_config : Config :=
  { USE_LR11XX_CREDENTIALS := false, SMTC_MODEM_STATUS_JOINED := 8 }

/-- An iteration in which nothing happens: no button interrupt, the engine
does not run the callback and recommends `sleep_time_ms`. -/
def quiet_iteration (sleep_time_ms : Nat) : IterationInputs :=
  { irqs_before_check := []
    status_mask := 0
    adc_value := 0
    rc_request_uplink := SMTC_MODEM_RC_OK
    irqs_before_engine := []
    engine_events := none
    sleep_time_ms := sleep_time_ms
    irqs_before_gate := []
    irq_flag_pending := false }

/-- An iteration in which the button is pressed at clock time 1000 ms after
the engine has run, just before the sleep gate. -/
def late_press_iteration : IterationInputs :=
  { quiet_iteration 30000 with irqs_before_gate := [(1000, 1000)] }

/-- An iteration in which the engine runs the callback on one
firmware-management event carrying the reboot-immediately directive. -/
def reboot_iteration : IterationInputs :=
  { quiet_iteration 30000 with
    engine_events := some [EventAnswers.ok (SMTC_MODEM_EVENT_FIRMWARE_MANAGEMENT true) 0 0] }

/-- State of an unjoined device on which a press at clock time 1000 ms was
accepted and then consumed by the button check of the main loop (status mask
0, so no uplink and no delay). -/
def after_consumed_press : State :=
  check_button example_config 0 0 SMTC_MODEM_RC_OK (button_edge 1000 State.init)

/-- Three events delivered in two runs of the callback: Joined alone, then
two Alarm events in one run; the stack answers `SMTC_MODEM_RC_BUSY` to every
call of the last pass. -/
def joined_then_two_alarms : List (List EventAnswers) :=
  [[EventAnswers.ok SMTC_MODEM_EVENT_JOINED 0 2730],
   [EventAnswers.ok SMTC_MODEM_EVENT_ALARM 1 2000,
    EventAnswers.all SMTC_MODEM_RC_BUSY SMTC_MODEM_EVENT_ALARM 0 2100]]

/-- A Reset event on a stack that answers `SMTC_MODEM_RC_FAIL` to every call. -/
def failing_reset : EventAnswers :=
  EventAnswers.all SMTC_MODEM_RC_FAIL SMTC_MODEM_EVENT_RESET 0 0

/-- A pressed button on a freshly started device: the state after an accepted
edge at clock time 1000 ms. -/
def pressed : State := button_edge 1000 State.init

/-! ## Calls of the loop skeleton -/

/-- Whether a call is one of those made by the skeleton of the two loops
themselves (the `while( 1 )` loop of the main function and the `do ... while`
loop of the callback) rather than by a handler: the four calls of the sleep
gate, the engine call, the pending-interrupt query and the event fetch. -/
def is_loop_call : Call → Bool
  | Call.hal_mcu_disable_irq => true
  | Call.hal_mcu_enable_irq => true
  | Call.hal_watchdog_reload => true
  | Call.hal_mcu_set_sleep_for_ms _ => true
  | Call.smtc_modem_run_engine => true
  | Call.smtc_modem_is_irq_flag_pending => true
  | Call.smtc_modem_get_event => true
  | _ => false

/-- Step from `s` to `s'` only appends calls, none of which is a call of the
loop skeleton. -/
def HandlerStep (s s' : State) : Prop :=
  ∃ cs : List Call, s'.trace = s.trace ++ cs ∧ ∀ c ∈ cs, is_loop_call c = false

/-- Whether a call is one of the four HAL calls of the sleep gate:
`hal_mcu_disable_irq`, `hal_mcu_enable_irq`, `hal_watchdog_reload`,
`hal_mcu_set_sleep_for_ms`. -/
def is_gate_call : Call → Bool
  | Call.hal_mcu_disable_irq => true
  | Call.hal_mcu_enable_irq => true
  | Call.hal_watchdog_reload => true
  | Call.hal_mcu_set_sleep_for_ms _ => true
  | _ => false

/-- The sleep-gate HAL calls of a list of calls, in order. -/
def gate_calls (cs : List Call) : List Call := cs.filter is_gate_call

/-- Step from `s` to `s'` only appends calls, none of which is a sleep-gate
HAL call. -/
def GateFreeStep (s s' : State) : Prop :=
  ∃ cs : List Call, s'.trace = s.trace ++ cs ∧ ∀ c ∈ cs, is_gate_call c = false

/-- The sleep-gate HAL calls issued by a gate entered with flag value
`flag`, pending-interrupt answer `pending` and engine duration
`sleep_time_ms`, as the claim lists them. -/
def gate_sequence (flag pending : Bool) (sleep_time_ms : Nat) : List Call :=
  Call.hal_mcu_disable_irq ::
    ((if flag = false ∧ pending = false then
        [Call.hal_watchdog_reload,
         Call.hal_mcu_set_sleep_for_ms (MIN (sleep_time_ms % 2 ^ 32) WATCHDOG_RELOAD_PERIOD_MS)]
      else []) ++
     [Call.hal_watchdog_reload, Call.hal_mcu_enable_irq])

/-! ## Event queue of the stack -/

/-- Modelled from the spec: `smtc_modem_get_event` belongs to the stack and is
not in the source; it is the "drain-next-event + pending-count" call.  For a
queue holding the given events (each with the answers of the stack to its
handler), the successive fetches return the events in order, each with the
number of events still queued after it. -/
def queue_answers : List EventAnswers → List EventAnswers
  | [] => []
  | a :: rest => { a with event_pending_count := rest.length } :: queue_answers rest

/-- The body of the `do ... while` loop of `modem_event_callback`: the fetch
with its result check, then the `switch`. -/
def loop_body (cfg : Config) (a : EventAnswers) (s : State) : State :=
  handle_event cfg a (ASSERT_SMTC_MODEM_RC Call.smtc_modem_get_event a.rc_get_event s)

/-- Number of `smtc_modem_get_event` calls in a list of calls. -/
def fetches (cs : List Call) : Nat := cs.count Call.smtc_modem_get_event

/-- A queue of two events: a firmware-management event carrying the
reboot-immediately directive, then an Alarm event. -/
def reboot_then_alarm : List EventAnswers :=
  [EventAnswers.ok (SMTC_MODEM_EVENT_FIRMWARE_MANAGEMENT true) 0 0,
   EventAnswers.ok SMTC_MODEM_EVENT_ALARM 0 2000]

/-- A queue of three events with an event of unknown kind first: type value
99, then an Alarm event, then TxDone. -/
def unknown_then_alarm_then_txdone : List EventAnswers :=
  [EventAnswers.ok (OTHER 99) 0 0,
   EventAnswers.ok SMTC_MODEM_EVENT_ALARM 0 2000,
   EventAnswers.ok SMTC_MODEM_EVENT_TXDONE 0 0]

/-! ## Debounce timestamp over a run of interrupts -/

/-- The values held by `last_press_timestamp_ms` before the first and after
each of the successive runs of `user_button_callback` listed in the first
argument (each element gives the two clock readings of one run). -/
def timestamp_history : List (Nat × Nat) → State → List Nat
  | [], s => [s.last_press_timestamp_ms]
  | (t_test, t_store) :: rest, s =>
    s.last_press_timestamp_ms ::
      timestamp_history rest (user_button_callback t_test t_store s)

/-- The clock readings of successive runs of `user_button_callback` come from
a non-decreasing 32-bit millisecond clock that has reached `t0`: every reading
is at least the one before it, starting from `t0`, and below `2 ^ 32`. -/
def clock_nondecreasing (t0 : Nat) : List (Nat × Nat) → Bool
  | [] => true
  | (t_test, t_store) :: rest =>
    decide (t0 ≤ t_test) && decide (t_test ≤ t_store) && decide (t_store < 2 ^ 32) &&
      clock_nondecreasing t_store rest

/-- Four button edges, at 300 ms, 1000 ms, 1400 ms and 2000 ms; the second
clock reading of each run comes 1 ms after the first. -/
def four_edges : List (Nat × Nat) := [(300, 301), (1000, 1001), (1400, 1401), (2000, 2001)]

/-! ## Basic facts about traces -/

@[simp]
theorem emit_trace (s : State) (cs : List Call) : (s.emit cs).trace = s.trace ++ cs := rfl

@[simp]
theorem emit_user_button_is_press (s : State) (cs : List Call) :
    (s.emit cs).user_button_is_press = s.user_button_is_press := rfl

@[simp]
theorem emit_last_press_timestamp_ms (s : State) (cs : List Call) :
    (s.emit cs).last_press_timestamp_ms = s.last_press_timestamp_ms := rfl

@[simp]
theorem emit_readValue (s : State) (cs : List Call) :
    (s.emit cs).readValue = s.readValue := rfl

@[simp]
theorem emit_mcu_reset (s : State) (cs : List Call) :
    (s.emit cs).mcu_reset = s.mcu_reset := rfl

theorem emit_emit (s : State) (as bs : List Call) : (s.emit as).emit bs = s.emit (as ++ bs) := by
  simp [State.emit, List.append_assoc]

theorem issued_of_trace {s s' : State} {cs : List Call} (h : s'.trace = s.trace ++ cs) :
    issued s s' = cs := by
  simp [issued, h]

theorem AwakeStep.awake_refl (s : State) : AwakeStep s s := ⟨[], by simp, by simp⟩

theorem AwakeStep.awake_trans {a b c : State} (h1 : AwakeStep a b) (h2 : AwakeStep b c) :
    AwakeStep a c := by
  obtain ⟨xs, hx, hxs⟩ := h1
  obtain ⟨ys, hy, hys⟩ := h2
  refine ⟨xs ++ ys, by rw [hy, hx, List.append_assoc], ?_⟩
  intro c hc
  rcases List.mem_append.mp hc with h | h
  · exact hxs c h
  · exact hys c h

theorem AwakeStep.awake_emit (s : State) (cs : List Call) (h : ∀ c ∈ cs, is_sleep c = false) :
    AwakeStep s (s.emit cs) := ⟨cs, rfl, h⟩

theorem ASSERT_SMTC_MODEM_RC_lines_awake (rc : smtc_modem_return_code_t) :
    ∀ c ∈ ASSERT_SMTC_MODEM_RC_lines rc, is_sleep c = false := by
  cases rc <;> simp [ASSERT_SMTC_MODEM_RC_lines, is_sleep]

theorem ASSERT_SMTC_MODEM_RC_awake (call : Call) (rc : smtc_modem_return_code_t) (s : State)
    (h : is_sleep call = false) : AwakeStep s (ASSERT_SMTC_MODEM_RC call rc s) := by
  refine AwakeStep.awake_emit s _ ?_
  intro c hc
  rcases List.mem_cons.mp hc with h1 | h1
  · rw [h1]; exact h
  · exact ASSERT_SMTC_MODEM_RC_lines_awake rc c h1

theorem user_button_callback_awake (t1 t2 : Nat) (s : State) :
    AwakeStep s (user_button_callback t1 t2 s) := by
  unfold user_button_callback
  by_cases h : debounce_accepts t1 s.last_press_timestamp_ms = true
  · simp only [emit_last_press_timestamp_ms, h, if_true]
    exact ⟨_, by simp [List.append_assoc]; rfl, by simp [is_sleep]⟩
  · simp only [emit_last_press_timestamp_ms, h]
    exact AwakeStep.awake_emit s _ (by simp [is_sleep])

theorem serve_button_irqs_awake (es : List (Nat × Nat)) (s : State) :
    AwakeStep s (serve_button_irqs es s) := by
  induction es generalizing s with
  | nil => exact AwakeStep.awake_refl s
  | cons e rest ih =>
    obtain ⟨t1, t2⟩ := e
    exact AwakeStep.awake_trans (user_button_callback_awake t1 t2 s) (ih _)

theorem send_uplink_moisture_on_port_awake (port adc : Nat) (rc : smtc_modem_return_code_t)
    (s : State) : AwakeStep s (send_uplink_moisture_on_port port adc rc s) := by
  unfold send_uplink_moisture_on_port
  dsimp only
  refine AwakeStep.awake_trans ?_ (ASSERT_SMTC_MODEM_RC_awake _ _ _ (by rfl))
  exact ⟨[Call.hal_gpio_set_value Pin.PA_13 1, Call.HAL_Delay 5000, Call.HAL_ADC_Start,
          Call.HAL_ADC_PollForConversion 100, Call.HAL_ADC_GetValue,
          Call.hal_trace_print_var (adc % 2 ^ 16), Call.HAL_ADC_Stop,
          Call.hal_gpio_set_value Pin.PA_13 0], by simp [State.emit], by simp [is_sleep]⟩

theorem provision_credentials_awake (cfg : Config) (a : EventAnswers) (s : State) :
    AwakeStep s (provision_credentials cfg a s) := by
  unfold provision_credentials
  dsimp only
  split
  · refine AwakeStep.awake_trans ?_ (ASSERT_SMTC_MODEM_RC_awake _ _ _ (by rfl))
    refine AwakeStep.awake_trans ?_ (ASSERT_SMTC_MODEM_RC_awake _ _ _ (by rfl))
    refine AwakeStep.awake_trans ?_ (ASSERT_SMTC_MODEM_RC_awake _ _ _ (by rfl))
    exact ASSERT_SMTC_MODEM_RC_awake _ _ _ (by rfl)
  · refine AwakeStep.awake_trans ?_ (AwakeStep.awake_emit _ _ (by simp [is_sleep]))
    refine AwakeStep.awake_trans ?_ (ASSERT_SMTC_MODEM_RC_awake _ _ _ (by rfl))
    refine AwakeStep.awake_trans ?_ (AwakeStep.awake_emit _ _ (by simp [is_sleep]))
    exact ASSERT_SMTC_MODEM_RC_awake _ _ _ (by rfl)

theorem handle_event_awake (cfg : Config) (a : EventAnswers) (s : State) :
    AwakeStep s (handle_event cfg a s) := by
  unfold handle_event
  dsimp only
  split
  · refine AwakeStep.awake_trans ?_ (ASSERT_SMTC_MODEM_RC_awake _ _ _ (by rfl))
    refine AwakeStep.awake_trans ?_ (ASSERT_SMTC_MODEM_RC_awake _ _ _ (by rfl))
    refine AwakeStep.awake_trans ?_ (ASSERT_SMTC_MODEM_RC_awake _ _ _ (by rfl))
    refine AwakeStep.awake_trans ?_ (provision_credentials_awake cfg a _)
    exact AwakeStep.awake_emit _ _ (by simp [is_sleep, info])
  · refine AwakeStep.awake_trans ?_ (ASSERT_SMTC_MODEM_RC_awake _ _ _ (by rfl))
    refine AwakeStep.awake_trans ?_ (send_uplink_moisture_on_port_awake _ _ _ _)
    exact AwakeStep.awake_emit _ _ (by simp [is_sleep, info])
  · refine AwakeStep.awake_trans ?_ (ASSERT_SMTC_MODEM_RC_awake _ _ _ (by rfl))
    refine AwakeStep.awake_trans ?_ (send_uplink_moisture_on_port_awake _ _ _ _)
    exact AwakeStep.awake_emit _ _ (by simp [is_sleep, info])
  · exact AwakeStep.awake_emit _ _ (by simp [is_sleep, info])
  · refine AwakeStep.awake_trans ?_ (AwakeStep.awake_emit _ _ (by simp [is_sleep]))
    have h2 : AwakeStep s (ASSERT_SMTC_MODEM_RC Call.smtc_modem_get_downlink_data
        a.rc_get_downlink_data
        (s.emit [info (TraceText.event_received SMTC_MODEM_EVENT_DOWNDATA)])) :=
      AwakeStep.awake_trans (AwakeStep.awake_emit _ _ (by simp [is_sleep, info]))
        (ASSERT_SMTC_MODEM_RC_awake _ _ _ (by rfl))
    split
    · obtain ⟨cs, h1, h3⟩ := h2
      exact ⟨cs, h1, h3⟩
    · exact h2
  · exact AwakeStep.awake_emit _ _ (by simp [is_sleep])
  · split
    · exact AwakeStep.awake_emit _ _ (by simp [is_sleep, info])
    · exact AwakeStep.awake_emit _ _ (by simp [is_sleep])
  · split
    · rename_i reboot _ _
      exact ⟨[info (TraceText.event_received (SMTC_MODEM_EVENT_FIRMWARE_MANAGEMENT reboot)),
              Call.smtc_modem_hal_reset_mcu], by simp [State.emit, smtc_modem_hal_reset_mcu],
        by simp [is_sleep, info]⟩
    · exact AwakeStep.awake_emit _ _ (by simp [is_sleep, info])
  · split
    · refine AwakeStep.awake_trans ?_ (AwakeStep.awake_emit _ _ (by simp [is_sleep, info]))
      exact AwakeStep.awake_emit _ _ (by simp [is_sleep, info])
    · exact AwakeStep.awake_emit _ _ (by simp [is_sleep, info])
  · split
    · refine AwakeStep.awake_trans ?_ (AwakeStep.awake_emit _ _ (by simp [is_sleep, info]))
      exact AwakeStep.awake_emit _ _ (by simp [is_sleep, info])
    · exact AwakeStep.awake_emit _ _ (by simp [is_sleep, info])
  · split
    · refine AwakeStep.awake_trans ?_ (AwakeStep.awake_emit _ _ (by simp [is_sleep, info]))
      exact AwakeStep.awake_emit _ _ (by simp [is_sleep, info])
    · exact AwakeStep.awake_emit _ _ (by simp [is_sleep, info])
  · exact AwakeStep.awake_emit _ _ (by simp [is_sleep])
  · exact AwakeStep.awake_emit _ _ (by simp [is_sleep, info])

theorem modem_event_callback_loop_awake (cfg : Config) (answers : List EventAnswers) :
    ∀ (s s' : State), modem_event_callback_loop cfg answers s = some s' → AwakeStep s s' := by
  induction answers with
  | nil => intro s s' h; simp [modem_event_callback_loop] at h
  | cons a rest ih =>
    intro s s' h
    have step : AwakeStep s
        (handle_event cfg a (ASSERT_SMTC_MODEM_RC Call.smtc_modem_get_event a.rc_get_event s)) :=
      AwakeStep.awake_trans (ASSERT_SMTC_MODEM_RC_awake _ _ _ (by rfl)) (handle_event_awake cfg a _)
    simp only [modem_event_callback_loop] at h
    split at h
    · cases h; exact step
    · split at h
      · exact AwakeStep.awake_trans step (ih _ _ h)
      · cases h; exact step

theorem modem_event_callback_awake (cfg : Config) (answers : List EventAnswers) (s s' : State)
    (h : modem_event_callback cfg answers s = some s') : AwakeStep s s' :=
  AwakeStep.awake_trans (AwakeStep.awake_emit s _ (by simp [is_sleep]))
    (modem_event_callback_loop_awake cfg answers _ _ h)

theorem check_button_awake (cfg : Config) (mask adc : Nat) (rc : smtc_modem_return_code_t)
    (s : State) : AwakeStep s (check_button cfg mask adc rc s) := by
  unfold check_button
  split
  · have h1 : AwakeStep s
        (State.emit { s with user_button_is_press := false } [Call.smtc_modem_get_status STACK_ID]) :=
      ⟨_, rfl, by simp [is_sleep]⟩
    split
    · exact AwakeStep.awake_trans h1 (send_uplink_moisture_on_port_awake _ _ _ _)
    · exact h1
  · exact AwakeStep.awake_refl s

theorem run_engine_awake (cfg : Config) (ev : Option (List EventAnswers)) (s s' : State)
    (h : run_engine cfg ev s = some s') : AwakeStep s s' := by
  unfold run_engine at h
  cases ev with
  | none =>
    simp only [Option.some.injEq] at h
    subst h
    exact AwakeStep.awake_emit s _ (by simp [is_sleep])
  | some answers =>
    exact AwakeStep.awake_trans (AwakeStep.awake_emit s _ (by simp [is_sleep]))
      (modem_event_callback_awake cfg answers _ _ h)

theorem state_at_gate_awake (cfg : Config) (i : IterationInputs) (s g : State)
    (h : state_at_gate cfg i s = some g) : AwakeStep s g := by
  unfold state_at_gate at h
  have pre : AwakeStep s (serve_button_irqs i.irqs_before_engine
      (check_button cfg i.status_mask i.adc_value i.rc_request_uplink
        (serve_button_irqs i.irqs_before_check s))) :=
    AwakeStep.awake_trans (serve_button_irqs_awake _ _)
      (AwakeStep.awake_trans (check_button_awake _ _ _ _ _) (serve_button_irqs_awake _ _))
  simp only at h
  split at h
  · cases h
  · rename_i s4 h4
    have he := run_engine_awake _ _ _ _ h4
    split at h
    · cases h; exact AwakeStep.awake_trans pre he
    · cases h
      exact AwakeStep.awake_trans pre (AwakeStep.awake_trans he (serve_button_irqs_awake _ _))

/-- The calls issued by the sleep gate: the source's sequence, as a list. -/
theorem sleep_gate_trace (t : Nat) (pending : Bool) (g : State) :
    (sleep_gate t pending g).trace = g.trace ++
      (Call.hal_mcu_disable_irq ::
        ((if g.user_button_is_press = false then
            Call.smtc_modem_is_irq_flag_pending ::
              (if pending = false then
                [Call.hal_watchdog_reload,
                 Call.hal_mcu_set_sleep_for_ms (MIN (t % 2 ^ 32) WATCHDOG_RELOAD_PERIOD_MS)]
               else [])
          else []) ++ [Call.hal_watchdog_reload, Call.hal_mcu_enable_irq])) := by
  unfold sleep_gate
  cases hf : g.user_button_is_press <;> cases pending <;> simp [hf, List.append_assoc]

theorem mem_issued_of_awake {s g : State} (h : AwakeStep s g) (ms : Nat) :
    Call.hal_mcu_set_sleep_for_ms ms ∉ issued s g := by
  obtain ⟨cs, hcs, hno⟩ := h
  rw [issued_of_trace hcs]
  intro hmem
  have := hno _ hmem
  simp [is_sleep] at this

/-- The calls of one whole iteration that reaches the gate without an MCU
reset: calls that never sleep, followed by the calls of the gate. -/
theorem loop_iteration_issued (cfg : Config) (i : IterationInputs) (s g : State)
    (h : state_at_gate cfg i s = some g) (hr : g.mcu_reset = false) :
    ∃ cs : List Call, (∀ c ∈ cs, is_sleep c = false) ∧
      loop_iteration cfg i s = some (sleep_gate i.sleep_time_ms i.irq_flag_pending g) ∧
      issued s (sleep_gate i.sleep_time_ms i.irq_flag_pending g) =
        cs ++ issued g (sleep_gate i.sleep_time_ms i.irq_flag_pending g) := by
  obtain ⟨cs, hcs, hno⟩ := state_at_gate_awake cfg i s g h
  refine ⟨cs, hno, ?_, ?_⟩
  · simp [loop_iteration, h, hr]
  · have hg := sleep_gate_trace i.sleep_time_ms i.irq_flag_pending g
    rw [issued_of_trace hg]
    rw [hcs, List.append_assoc] at hg
    rw [issued_of_trace hg]

/-- Which sleep calls an iteration issues when its gate is entered in `g`
without an MCU reset. -/
theorem loop_iteration_sleep_mem (cfg : Config) (i : IterationInputs) (s g : State)
    (h : state_at_gate cfg i s = some g) (hr : g.mcu_reset = false) (ms : Nat) :
    Call.hal_mcu_set_sleep_for_ms ms ∈
        issued s (sleep_gate i.sleep_time_ms i.irq_flag_pending g) ↔
      (ms = MIN (i.sleep_time_ms % 2 ^ 32) WATCHDOG_RELOAD_PERIOD_MS ∧
        g.user_button_is_press = false ∧ i.irq_flag_pending = false) := by
  obtain ⟨cs, hno, _, hiss⟩ := loop_iteration_issued cfg i s g h hr
  have hg := issued_of_trace (sleep_gate_trace i.sleep_time_ms i.irq_flag_pending g)
  rw [hiss, hg, List.mem_append]
  constructor
  · rintro (hm | hm)
    · have := hno _ hm
      simp [is_sleep] at this
    · cases hf : g.user_button_is_press <;> cases hp : i.irq_flag_pending <;>
        simp [hf, hp] at hm ⊢
      exact hm
  · rintro ⟨h1, h2, h3⟩
    right
    simp [h1, h2, h3]

/-- What an iteration returns, in terms of the state at its gate. -/
theorem loop_iteration_eq (cfg : Config) (i : IterationInputs) (s s' : State)
    (h : loop_iteration cfg i s = some s') :
    ∃ g, state_at_gate cfg i s = some g ∧
      ((g.mcu_reset = true ∧ s' = g) ∨
        (g.mcu_reset = false ∧ s' = sleep_gate i.sleep_time_ms i.irq_flag_pending g)) := by
  unfold loop_iteration at h
  cases hg : state_at_gate cfg i s with
  | none => simp [hg] at h
  | some g =>
    refine ⟨g, rfl, ?_⟩
    cases hr : g.mcu_reset <;> simp [hg, hr] at h
    · right; exact ⟨rfl, h.symm⟩
    · left; exact ⟨rfl, h.symm⟩

theorem byte_split (v : Nat) :
    (v >>> 8) &&& 0xFF = v / 256 % 256 ∧ v &&& 0xFF = v % 256 := by
  have h1 : ∀ x : Nat, x &&& 0xFF = x % 256 := fun x => Nat.and_pow_two_sub_one_eq_mod x 8
  rw [h1, h1, Nat.shiftRight_eq_div_pow]
  exact ⟨rfl, rfl⟩

theorem moisture_payload_eq (v : Nat) :
    moisture_payload v = [(v >>> 8) &&& 0xFF, v &&& 0xFF] := by
  obtain ⟨h1, h2⟩ := byte_split v
  unfold moisture_payload
  rw [h1, h2]
  simp

/-- The calls of `send_uplink_moisture_on_port`, in order. -/
theorem send_uplink_moisture_on_port_trace (port adc : Nat) (rc : smtc_modem_return_code_t)
    (s : State) :
    (send_uplink_moisture_on_port port adc rc s).trace = s.trace ++
      ([Call.hal_gpio_set_value Pin.PA_13 1, Call.HAL_Delay 5000, Call.HAL_ADC_Start,
        Call.HAL_ADC_PollForConversion 100, Call.HAL_ADC_GetValue,
        Call.hal_trace_print_var (adc % 2 ^ 16), Call.HAL_ADC_Stop,
        Call.hal_gpio_set_value Pin.PA_13 0,
        Call.smtc_modem_request_uplink STACK_ID (port % 2 ^ 8) false
          (moisture_payload (adc % 2 ^ 16)) 2] ++ ASSERT_SMTC_MODEM_RC_lines rc) := by
  simp [send_uplink_moisture_on_port, ASSERT_SMTC_MODEM_RC, State.emit]

/-! ## Claims -/

/-- C1: in an iteration of the main loop whose sleep gate is entered in state
`g`, `hal_mcu_set_sleep_for_ms` is not called when `user_button_is_press` is
true in `g` (the value read after `hal_mcu_disable_irq`), and not called when
`smtc_modem_is_irq_flag_pending` returns true; the iteration sleeps exactly
when both are false (and the MCU was not reset by the engine's callback). -/
theorem C1_no_sleep_when_flag_or_irq_pending (cfg : Config) (i : IterationInputs)
    (s g : State) (h : state_at_gate cfg i s = some g) :
    ∃ s', loop_iteration cfg i s = some s' ∧
      (g.user_button_is_press = true →
        ∀ ms, Call.hal_mcu_set_sleep_for_ms ms ∉ issued s s') ∧
      (i.irq_flag_pending = true →
        ∀ ms, Call.hal_mcu_set_sleep_for_ms ms ∉ issued s s') ∧
      ((∃ ms, Call.hal_mcu_set_sleep_for_ms ms ∈ issued s s') ↔
        (g.mcu_reset = false ∧ g.user_button_is_press = false ∧ i.irq_flag_pending = false)) := by
  cases hr : g.mcu_reset with
  | true =>
    refine ⟨g, by simp [loop_iteration, h, hr], ?_, ?_, ?_⟩
    · intro _ ms; exact mem_issued_of_awake (state_at_gate_awake cfg i s g h) ms
    · intro _ ms; exact mem_issued_of_awake (state_at_gate_awake cfg i s g h) ms
    · constructor
      · rintro ⟨ms, hms⟩
        exact absurd hms (mem_issued_of_awake (state_at_gate_awake cfg i s g h) ms)
      · rintro ⟨h1, _⟩; cases h1
  | false =>
    obtain ⟨_, _, hloop, _⟩ := loop_iteration_issued cfg i s g h hr
    have key := loop_iteration_sleep_mem cfg i s g h hr
    refine ⟨_, hloop, ?_, ?_, ?_⟩
    · intro hf ms hm
      have := ((key ms).mp hm).2.1
      rw [hf] at this
      cases this
    · intro hp ms hm
      have := ((key ms).mp hm).2.2
      rw [hp] at this
      cases this
    · constructor
      · rintro ⟨ms, hm⟩
        exact ⟨rfl, ((key ms).mp hm).2⟩
      · rintro ⟨_, h2, h3⟩
        exact ⟨_, (key _).mpr ⟨rfl, h2, h3⟩⟩

/-- Witness of C1: the button is pressed between the engine and the gate; the
gate is entered with the flag set. -/
theorem C1_no_sleep_when_flag_or_irq_pending_witness :
    state_at_gate example_config late_press_iteration State.init =
        some (button_edge 1000 (State.init.emit [Call.smtc_modem_run_engine])) ∧
      ∃ s', loop_iteration example_config late_press_iteration State.init = some s' ∧
        ((button_edge 1000 (State.init.emit [Call.smtc_modem_run_engine])).user_button_is_press
            = true →
          ∀ ms, Call.hal_mcu_set_sleep_for_ms ms ∉ issued State.init s') ∧
        (late_press_iteration.irq_flag_pending = true →
          ∀ ms, Call.hal_mcu_set_sleep_for_ms ms ∉ issued State.init s') ∧
        ((∃ ms, Call.hal_mcu_set_sleep_for_ms ms ∈ issued State.init s') ↔
          ((button_edge 1000 (State.init.emit [Call.smtc_modem_run_engine])).mcu_reset = false ∧
            (button_edge 1000 (State.init.emit [Call.smtc_modem_run_engine])).user_button_is_press
              = false ∧
            late_press_iteration.irq_flag_pending = false)) :=
  ⟨by decide, C1_no_sleep_when_flag_or_irq_pending example_config late_press_iteration State.init
    (button_edge 1000 (State.init.emit [Call.smtc_modem_run_engine])) (by decide)⟩

/-- C2: for every 32-bit sleep duration `t` returned by `smtc_modem_run_engine`,
the duration handed to `hal_mcu_set_sleep_for_ms` is `MIN( t, 20000 )`: it is
`min t 20000`, at most 20000, equal to `t` below 20000 and to 20000 from 20000
on.  Every sleep call of an iteration carries that duration, and a gate
entered with nothing pending issues it. -/
theorem C2_sleep_duration_clamped (t : Nat) (ht : t < 2 ^ 32) :
    MIN t WATCHDOG_RELOAD_PERIOD_MS = min t 20000 ∧
      MIN t WATCHDOG_RELOAD_PERIOD_MS ≤ 20000 ∧
      (t < 20000 → MIN t WATCHDOG_RELOAD_PERIOD_MS = t) ∧
      (20000 ≤ t → MIN t WATCHDOG_RELOAD_PERIOD_MS = 20000) ∧
      (∀ (cfg : Config) (i : IterationInputs) (s s' : State),
        i.sleep_time_ms = t → loop_iteration cfg i s = some s' →
        ∀ ms, Call.hal_mcu_set_sleep_for_ms ms ∈ issued s s' →
          ms = MIN t WATCHDOG_RELOAD_PERIOD_MS) ∧
      (∀ g : State, g.user_button_is_press = false →
        issued g (sleep_gate t false g) =
          [Call.hal_mcu_disable_irq, Call.smtc_modem_is_irq_flag_pending,
           Call.hal_watchdog_reload,
           Call.hal_mcu_set_sleep_for_ms (MIN t WATCHDOG_RELOAD_PERIOD_MS),
           Call.hal_watchdog_reload, Call.hal_mcu_enable_irq]) := by
  have hmod : t % 2 ^ 32 = t := Nat.mod_eq_of_lt ht
  refine ⟨?_, ?_, ?_, ?_, ?_, ?_⟩
  · unfold MIN WATCHDOG_RELOAD_PERIOD_MS
    split <;> omega
  · unfold MIN WATCHDOG_RELOAD_PERIOD_MS
    split <;> omega
  · intro h
    unfold MIN WATCHDOG_RELOAD_PERIOD_MS
    split <;> omega
  · intro h
    unfold MIN WATCHDOG_RELOAD_PERIOD_MS
    split <;> omega
  · intro cfg i s s' hi hloop ms hm
    obtain ⟨g, hg, hcase⟩ := loop_iteration_eq cfg i s s' hloop
    rcases hcase with ⟨_, rfl⟩ | ⟨hr, rfl⟩
    · exact absurd hm (mem_issued_of_awake (state_at_gate_awake cfg i s _ hg) ms)
    · have := ((loop_iteration_sleep_mem cfg i s g hg hr ms).mp hm).1
      rw [hi, hmod] at this
      exact this
  · intro g hf
    rw [issued_of_trace (sleep_gate_trace t false g), hmod]
    simp [hf]

/-- Witness of C2 at the largest 32-bit duration. -/
theorem C2_sleep_duration_clamped_witness :
    MIN 0xFFFFFFFF WATCHDOG_RELOAD_PERIOD_MS = 20000 ∧
      issued State.init (sleep_gate 0xFFFFFFFF false State.init) =
        [Call.hal_mcu_disable_irq, Call.smtc_modem_is_irq_flag_pending,
         Call.hal_watchdog_reload, Call.hal_mcu_set_sleep_for_ms 20000,
         Call.hal_watchdog_reload, Call.hal_mcu_enable_irq] :=
  ⟨(C2_sleep_duration_clamped 0xFFFFFFFF (by decide)).2.2.2.1 (by decide),
   (C2_sleep_duration_clamped 0xFFFFFFFF (by decide)).2.2.2.1 (by decide) ▸
     (C2_sleep_duration_clamped 0xFFFFFFFF (by decide)).2.2.2.2.2 State.init rfl⟩

/-- C3: for every sensor value `V` in 0..4095 the payload built by
`send_uplink_moisture_on_port` is `[(V >> 8) & 0xFF, V & 0xFF]`, the uplink
request carries exactly these two bytes, and decoding them big-endian
(`byte0 * 256 + byte1`) gives `V` back. -/
theorem C3_payload_round_trip (V : Nat) (hV : V ≤ 4095) :
    moisture_payload V = [(V >>> 8) &&& 0xFF, V &&& 0xFF] ∧
      decode_big_endian (moisture_payload V) = V ∧
      ((V >>> 8) &&& 0xFF) * 256 + (V &&& 0xFF) = V ∧
      (∀ (port : Nat) (rc : smtc_modem_return_code_t) (s : State),
        (send_uplink_moisture_on_port port V rc s).readValue = V ∧
        issued s (send_uplink_moisture_on_port port V rc s) =
          [Call.hal_gpio_set_value Pin.PA_13 1, Call.HAL_Delay 5000, Call.HAL_ADC_Start,
           Call.HAL_ADC_PollForConversion 100, Call.HAL_ADC_GetValue,
           Call.hal_trace_print_var V, Call.HAL_ADC_Stop,
           Call.hal_gpio_set_value Pin.PA_13 0,
           Call.smtc_modem_request_uplink STACK_ID (port % 2 ^ 8) false
             [(V >>> 8) &&& 0xFF, V &&& 0xFF] 2] ++ ASSERT_SMTC_MODEM_RC_lines rc) := by
  have h16 : V % 2 ^ 16 = V := Nat.mod_eq_of_lt (by omega)
  obtain ⟨h1, h2⟩ := byte_split V
  have hp := moisture_payload_eq V
  refine ⟨hp, ?_, ?_, ?_⟩
  · rw [hp, h1, h2]
    simp only [decode_big_endian]
    omega
  · rw [h1, h2]
    omega
  · intro port rc s
    constructor
    · simp [send_uplink_moisture_on_port, ASSERT_SMTC_MODEM_RC, State.emit]
      omega
    · rw [issued_of_trace (send_uplink_moisture_on_port_trace port V rc s), h16, hp]

/-- Witness of C3 at the largest 12-bit value. -/
theorem C3_payload_round_trip_witness :
    moisture_payload 4095 = [0x0F, 0xFF] ∧ decode_big_endian (moisture_payload 4095) = 4095 :=
  ⟨(C3_payload_round_trip 4095 (by decide)).1, (C3_payload_round_trip 4095 (by decide)).2.1⟩

/-! ### Debouncer -/

/-- With a clock that has not wrapped since the stored timestamp, the
debounce test succeeds exactly when the elapsed time is above 500 ms and below
`2 ^ 31` ms (the range in which the `int32_t` cast keeps the sign). -/
theorem debounce_accepts_iff (t last : Nat) (ht : t < 2 ^ 32) (hl : last ≤ t) :
    debounce_accepts t last = true ↔ (500 < t - last ∧ t - last < 2 ^ 31) := by
  unfold debounce_accepts int32_of_uint32 uint32_sub
  norm_num only at ht ⊢
  rw [decide_eq_true_iff]
  have e1 : (t % 4294967296 + (4294967296 - last % 4294967296)) % 4294967296 = t - last := by
    omega
  rw [e1, Nat.mod_eq_of_lt (by omega : t - last < 4294967296)]
  split <;> omega

/-- What `user_button_callback` does to the debouncer variables. -/
theorem user_button_callback_vars (t ts : Nat) (s : State) :
    (edge_accepted t s = true →
      (user_button_callback t ts s).last_press_timestamp_ms = ts % 2 ^ 32 ∧
      (user_button_callback t ts s).user_button_is_press = true) ∧
    (edge_accepted t s = false →
      (user_button_callback t ts s).last_press_timestamp_ms = s.last_press_timestamp_ms ∧
      (user_button_callback t ts s).user_button_is_press = s.user_button_is_press) := by
  unfold edge_accepted user_button_callback
  constructor <;> intro h <;> simp [h]

/-- C4: two consecutive runs of `user_button_callback` at clock times
`t1 <= t2` no more than 500 ms apart are never both accepted (`t1s` is the
second clock reading of the first run, between `t1` and `t2`); and an edge
that comes no more than 500 ms after the stored timestamp of the last
accepted press is rejected and leaves `last_press_timestamp_ms` and
`user_button_is_press` unchanged. -/
theorem C4_debounce_at_most_one_within_window (s : State) (t1 t1s t2 t2s : Nat)
    (h1 : t1 ≤ t1s) (h1s : t1s ≤ t2) (h2 : t2 < 2 ^ 32) (hgap : t2 - t1 ≤ 500) :
    ¬ (edge_accepted t1 s = true ∧
        edge_accepted t2 (user_button_callback t1 t1s s) = true) ∧
      ¬ (edge_accepted t1 s = true ∧ edge_accepted t2 (button_edge t1 s) = true) ∧
      (s.last_press_timestamp_ms ≤ t2 → t2 - s.last_press_timestamp_ms ≤ 500 →
        edge_accepted t2 s = false ∧
        (user_button_callback t2 t2s s).last_press_timestamp_ms = s.last_press_timestamp_ms ∧
        (user_button_callback t2 t2s s).user_button_is_press = s.user_button_is_press) := by
  have two : ∀ ts, t1 ≤ ts → ts ≤ t2 →
      ¬ (edge_accepted t1 s = true ∧
        edge_accepted t2 (user_button_callback t1 ts s) = true) := by
    intro ts hts hts2
    rintro ⟨ha, hb⟩
    have hstore := ((user_button_callback_vars t1 ts s).1 ha).1
    rw [Nat.mod_eq_of_lt (by omega : ts < 2 ^ 32)] at hstore
    unfold edge_accepted at hb
    rw [hstore, debounce_accepts_iff t2 ts h2 hts2] at hb
    omega
  refine ⟨two t1s h1 h1s, two t1 (le_refl _) (by omega), ?_⟩
  intro hl hclose
  have hrej : edge_accepted t2 s = false := by
    cases h : edge_accepted t2 s with
    | false => rfl
    | true =>
      unfold edge_accepted at h
      rw [debounce_accepts_iff t2 _ h2 hl] at h
      omega
  exact ⟨hrej, (user_button_callback_vars t2 t2s s).2 hrej⟩

/-- Witness of C4: from the initial state, edges at 1000 ms and 1400 ms. -/
theorem C4_debounce_at_most_one_within_window_witness :
    ¬ (edge_accepted 1000 State.init = true ∧
        edge_accepted 1400 (user_button_callback 1000 1000 State.init) = true) ∧
      edge_accepted 1000 State.init = true :=
  ⟨(C4_debounce_at_most_one_within_window State.init 1000 1000 1400 1400
      (by decide) (by decide) (by decide) (by decide)).1, by decide⟩

/-- C5, refuted as stated: on a device where a press at 1000 ms was accepted
and consumed, two edges at 1400 ms and 2000 ms are more than 500 ms apart, yet
the edge at 1400 ms is not accepted: it changes neither the timestamp nor the
flag, which stays false. -/
theorem C5_counterexample_edge_inside_window_of_earlier_press :
    500 < 2000 - 1400 ∧
      after_consumed_press.last_press_timestamp_ms = 1000 ∧
      after_consumed_press.user_button_is_press = false ∧
      edge_accepted 1400 after_consumed_press = false ∧
      (button_edge 1400 after_consumed_press).user_button_is_press = false ∧
      (button_edge 1400 after_consumed_press).last_press_timestamp_ms = 1000 ∧
      edge_accepted 2000 (button_edge 1400 after_consumed_press) = true := by
  decide

/-- The `int32_t` cast of the debounce test rejects an edge that comes
`2 ^ 31` ms or more after the stored timestamp. -/
theorem debounce_rejects_after_half_range :
    edge_accepted (1000 + 2 ^ 31) (button_edge 1000 State.init) = false := by
  decide

/-- The debounce window runs from the stored clock reading: after a run of
`user_button_callback` that tested the clock at 1000 ms and stored the reading
1001 ms, an edge at 1501 ms is rejected. -/
theorem debounce_window_runs_from_stored_reading :
    edge_accepted 1501 (user_button_callback 1000 1001 State.init) = false := by
  decide

/-- The debounce test in the wrapping 32-bit arithmetic of the code: it
succeeds exactly when the elapsed time `(now - last) mod 2 ^ 32` is above 500
and below `2 ^ 31`. -/
theorem debounce_accepts_iff_elapsed (t last : Nat) :
    debounce_accepts t last = true ↔
      (500 < uint32_sub t last ∧ uint32_sub t last < 2 ^ 31) := by
  have hlt : uint32_sub t last < 2 ^ 32 := by
    unfold uint32_sub
    exact Nat.mod_lt _ (by norm_num)
  unfold debounce_accepts int32_of_uint32
  rw [decide_eq_true_iff, Nat.mod_eq_of_lt hlt]
  generalize uint32_sub t last = d at hlt
  norm_num only at hlt ⊢
  split <;> omega

theorem uint32_sub_mod_right (a b : Nat) : uint32_sub a (b % 2 ^ 32) = uint32_sub a b := by
  unfold uint32_sub
  rw [Nat.mod_mod]

/-- C5, amended: in the wrapping 32-bit arithmetic of the code, when the clock
reading tested by the first run of `user_button_callback` is more than 500 ms
and less than `2 ^ 31` ms after the stored `last_press_timestamp_ms`, and the
reading tested by the second run is more than 500 ms and less than `2 ^ 31` ms
after the reading stored by the first run (its second clock read `t1s`), both
edges register: each is accepted, stores its own second clock reading and sets
`user_button_is_press`, whatever the main loop did to the flag in between.  In
general an edge is accepted exactly when that elapsed time is above 500 and
below `2 ^ 31`. -/
theorem C5_edges_outside_window_both_register (s : State) (t1 t1s t2 t2s : Nat)
    (hfirst : 500 < uint32_sub t1 s.last_press_timestamp_ms ∧
      uint32_sub t1 s.last_press_timestamp_ms < 2 ^ 31)
    (hsecond : 500 < uint32_sub t2 t1s ∧ uint32_sub t2 t1s < 2 ^ 31) :
    edge_accepted t1 s = true ∧
      (user_button_callback t1 t1s s).user_button_is_press = true ∧
      (user_button_callback t1 t1s s).last_press_timestamp_ms = t1s % 2 ^ 32 ∧
      (∀ s1 : State,
        s1.last_press_timestamp_ms =
          (user_button_callback t1 t1s s).last_press_timestamp_ms →
        edge_accepted t2 s1 = true ∧
        (user_button_callback t2 t2s s1).user_button_is_press = true ∧
        (user_button_callback t2 t2s s1).last_press_timestamp_ms = t2s % 2 ^ 32) ∧
      (∀ (t : Nat) (st : State),
        edge_accepted t st = true ↔
          (500 < uint32_sub t st.last_press_timestamp_ms ∧
            uint32_sub t st.last_press_timestamp_ms < 2 ^ 31)) := by
  have acc1 : edge_accepted t1 s = true := by
    unfold edge_accepted
    exact (debounce_accepts_iff_elapsed t1 _).mpr hfirst
  have v1 := (user_button_callback_vars t1 t1s s).1 acc1
  refine ⟨acc1, v1.2, v1.1, ?_, ?_⟩
  · intro s1 hs1
    have acc2 : edge_accepted t2 s1 = true := by
      unfold edge_accepted
      rw [hs1, v1.1, debounce_accepts_iff_elapsed, uint32_sub_mod_right]
      exact hsecond
    have v2 := (user_button_callback_vars t2 t2s s1).1 acc2
    exact ⟨acc2, v2.2, v2.1⟩
  · intro t st
    unfold edge_accepted
    exact debounce_accepts_iff_elapsed t _

/-- Witness of C5 (amended): from the initial state, a first run reading the
clock at 1000 ms then 1001 ms, and a second run reading it at 1502 ms then
1503 ms. -/
theorem C5_edges_outside_window_both_register_witness :
    edge_accepted 1000 State.init = true ∧
      (user_button_callback 1000 1001 State.init).user_button_is_press = true ∧
      (user_button_callback 1000 1001 State.init).last_press_timestamp_ms = 1001 % 2 ^ 32 ∧
      (∀ s1 : State,
        s1.last_press_timestamp_ms =
          (user_button_callback 1000 1001 State.init).last_press_timestamp_ms →
        edge_accepted 1502 s1 = true ∧
        (user_button_callback 1502 1503 s1).user_button_is_press = true ∧
        (user_button_callback 1502 1503 s1).last_press_timestamp_ms = 1503 % 2 ^ 32) :=
  ⟨(C5_edges_outside_window_both_register State.init 1000 1001 1502 1503
      (by decide) (by decide)).1,
   (C5_edges_outside_window_both_register State.init 1000 1001 1502 1503
      (by decide) (by decide)).2.1,
   (C5_edges_outside_window_both_register State.init 1000 1001 1502 1503
      (by decide) (by decide)).2.2.1,
   (C5_edges_outside_window_both_register State.init 1000 1001 1502 1503
      (by decide) (by decide)).2.2.2.1⟩

/-! ### Event handlers -/

theorem alarm_periods_append (xs ys : List Call) :
    alarm_periods (xs ++ ys) = alarm_periods xs ++ alarm_periods ys := by
  induction xs with
  | nil => rfl
  | cons c rest ih => cases c <;> simp [alarm_periods, ih]

theorem alarm_periods_lines (rc : smtc_modem_return_code_t) :
    alarm_periods (ASSERT_SMTC_MODEM_RC_lines rc) = [] := by
  cases rc <;> rfl

theorem alarm_periods_moisture_uplink_calls (port adc : Nat) (rc : smtc_modem_return_code_t) :
    alarm_periods (moisture_uplink_calls port adc rc) = [] := by
  unfold moisture_uplink_calls
  rw [alarm_periods_append, alarm_periods_lines]
  rfl

theorem send_uplink_moisture_on_port_trace_eq (port adc : Nat) (rc : smtc_modem_return_code_t)
    (s : State) :
    (send_uplink_moisture_on_port port adc rc s).trace =
      s.trace ++ moisture_uplink_calls port adc rc :=
  send_uplink_moisture_on_port_trace port adc rc s

theorem send_uplink_moisture_on_port_mcu_reset (port adc : Nat) (rc : smtc_modem_return_code_t)
    (s : State) : (send_uplink_moisture_on_port port adc rc s).mcu_reset = s.mcu_reset := by
  simp [send_uplink_moisture_on_port, ASSERT_SMTC_MODEM_RC, State.emit]

/-- The calls of the `SMTC_MODEM_EVENT_ALARM` case. -/
theorem handle_event_alarm (cfg : Config) (a : EventAnswers) (s : State)
    (h : a.event_type = SMTC_MODEM_EVENT_ALARM) :
    (handle_event cfg a s).trace = s.trace ++
        (info (TraceText.event_received SMTC_MODEM_EVENT_ALARM) ::
          (moisture_uplink_calls 101 a.adc_value a.rc_request_uplink ++
            Call.smtc_modem_alarm_start_timer PERIODICAL_UPLINK_DELAY_S ::
              ASSERT_SMTC_MODEM_RC_lines a.rc_alarm_start_timer)) ∧
      (handle_event cfg a s).mcu_reset = s.mcu_reset := by
  unfold handle_event
  rw [h]
  simp [ASSERT_SMTC_MODEM_RC, send_uplink_moisture_on_port_trace_eq,
    send_uplink_moisture_on_port_mcu_reset]

/-- The calls of the `SMTC_MODEM_EVENT_JOINED` case. -/
theorem handle_event_joined (cfg : Config) (a : EventAnswers) (s : State)
    (h : a.event_type = SMTC_MODEM_EVENT_JOINED) :
    (handle_event cfg a s).trace = s.trace ++
        (info (TraceText.event_received SMTC_MODEM_EVENT_JOINED) ::
          info TraceText.modem_is_now_joined ::
          (moisture_uplink_calls 101 a.adc_value a.rc_request_uplink ++
            Call.smtc_modem_alarm_start_timer PERIODICAL_UPLINK_DELAY_S ::
              ASSERT_SMTC_MODEM_RC_lines a.rc_alarm_start_timer)) ∧
      (handle_event cfg a s).mcu_reset = s.mcu_reset := by
  unfold handle_event
  rw [h]
  simp [ASSERT_SMTC_MODEM_RC, send_uplink_moisture_on_port_trace_eq,
    send_uplink_moisture_on_port_mcu_reset]

/-- One pass of the loop body on a Joined or Alarm event arms the alarm once,
with the configured period, and does not reset the MCU. -/
theorem pass_periodic (cfg : Config) (a : EventAnswers) (s : State)
    (h : a.event_type = SMTC_MODEM_EVENT_JOINED ∨ a.event_type = SMTC_MODEM_EVENT_ALARM) :
    ∃ cs, (handle_event cfg a
          (ASSERT_SMTC_MODEM_RC Call.smtc_modem_get_event a.rc_get_event s)).trace =
        s.trace ++ cs ∧
      alarm_periods cs = [PERIODICAL_UPLINK_DELAY_S] ∧
      (handle_event cfg a
        (ASSERT_SMTC_MODEM_RC Call.smtc_modem_get_event a.rc_get_event s)).mcu_reset =
        s.mcu_reset := by
  rcases h with h | h
  · obtain ⟨ht, hr⟩ := handle_event_joined cfg a
      (ASSERT_SMTC_MODEM_RC Call.smtc_modem_get_event a.rc_get_event s) h
    refine ⟨_, by rw [ht]; simp only [ASSERT_SMTC_MODEM_RC, emit_trace, List.append_assoc]; rfl,
      ?_, by rw [hr]; rfl⟩
    simp [alarm_periods_append, alarm_periods_lines, alarm_periods_moisture_uplink_calls,
      alarm_periods, info]
  · obtain ⟨ht, hr⟩ := handle_event_alarm cfg a
      (ASSERT_SMTC_MODEM_RC Call.smtc_modem_get_event a.rc_get_event s) h
    refine ⟨_, by rw [ht]; simp only [ASSERT_SMTC_MODEM_RC, emit_trace, List.append_assoc]; rfl,
      ?_, by rw [hr]; rfl⟩
    simp [alarm_periods_append, alarm_periods_lines, alarm_periods_moisture_uplink_calls,
      alarm_periods, info]

/-- On a drain whose events are all Joined or Alarm, the loop returns after
one pass per answer and arms the alarm once per pass. -/
theorem modem_event_callback_loop_periodic (cfg : Config) (answers : List EventAnswers) :
    ∀ s : State, s.mcu_reset = false → is_drain answers = true →
      (∀ a ∈ answers, a.event_type = SMTC_MODEM_EVENT_JOINED ∨
        a.event_type = SMTC_MODEM_EVENT_ALARM) →
      ∃ s' cs, modem_event_callback_loop cfg answers s = some s' ∧ s'.mcu_reset = false ∧
        s'.trace = s.trace ++ cs ∧
        alarm_periods cs = List.replicate answers.length PERIODICAL_UPLINK_DELAY_S := by
  induction answers with
  | nil => intro s _ hd; simp [is_drain] at hd
  | cons a rest ih =>
    intro s hs hd hev
    obtain ⟨cs, htr, hper, hrs⟩ := pass_periodic cfg a s (hev a (List.mem_cons_self _ _))
    rw [hs] at hrs
    simp only [is_drain] at hd
    by_cases hp : a.event_pending_count % 2 ^ 8 > 0
    · rw [if_pos hp] at hd
      obtain ⟨s', cs', hloop, hr', htr', hper'⟩ := ih _ hrs hd
        (fun b hb => hev b (List.mem_cons_of_mem _ hb))
      refine ⟨s', cs ++ cs', ?_, hr', ?_, ?_⟩
      · simp only [modem_event_callback_loop, hrs, if_pos hp]
        simpa using hloop
      · rw [htr', htr, List.append_assoc]
      · rw [alarm_periods_append, hper, hper']
        rfl
    · rw [if_neg hp] at hd
      have hnil : rest = [] := List.isEmpty_iff.mp hd
      subst hnil
      refine ⟨_, cs, ?_, hrs, htr, ?_⟩
      · simp only [modem_event_callback_loop, hrs, if_neg hp]
        simp
      · rw [hper]; rfl

/-- Successive callback runs over drains of Joined and Alarm events arm the
alarm once per event. -/
theorem run_callbacks_periodic (cfg : Config) (batches : List (List EventAnswers)) :
    ∀ s : State, s.mcu_reset = false → (∀ b ∈ batches, is_drain b = true) →
      (∀ a ∈ batches.flatten, a.event_type = SMTC_MODEM_EVENT_JOINED ∨
        a.event_type = SMTC_MODEM_EVENT_ALARM) →
      ∃ s' cs, run_callbacks cfg batches s = some s' ∧ s'.mcu_reset = false ∧
        s'.trace = s.trace ++ cs ∧
        alarm_periods cs = List.replicate batches.flatten.length PERIODICAL_UPLINK_DELAY_S := by
  induction batches with
  | nil =>
    intro s hs _ _
    exact ⟨s, [], rfl, hs, by simp, rfl⟩
  | cons b rest ih =>
    intro s hs hd hev
    obtain ⟨s1, cs1, h1, hr1, ht1, hp1⟩ :=
      modem_event_callback_loop_periodic cfg b
        (s.emit [Call.SMTC_HAL_TRACE Severity.MSG_COLOR TraceText.modem_event_callback])
        hs (hd b (List.mem_cons_self _ _))
        (fun a ha => hev a (by simp [ha]))
    obtain ⟨s2, cs2, h2, hr2, ht2, hp2⟩ := ih s1 hr1
      (fun c hc => hd c (List.mem_cons_of_mem _ hc))
      (fun a ha => hev a (by
        rw [List.flatten_cons, List.mem_append]
        exact Or.inr ha))
    refine ⟨s2, Call.SMTC_HAL_TRACE Severity.MSG_COLOR TraceText.modem_event_callback ::
      (cs1 ++ cs2), ?_, hr2, ?_, ?_⟩
    · simp only [run_callbacks, modem_event_callback, h1, hr1]
      simpa using h2
    · rw [ht2, ht1]
      simp
    · have e : Call.SMTC_HAL_TRACE Severity.MSG_COLOR TraceText.modem_event_callback ::
          (cs1 ++ cs2) =
          [Call.SMTC_HAL_TRACE Severity.MSG_COLOR TraceText.modem_event_callback] ++
            (cs1 ++ cs2) := rfl
      rw [e, alarm_periods_append, alarm_periods_append, hp1, hp2, List.flatten_cons,
        List.length_append, List.replicate_add]
      rfl

/-- C6: the handler of an Alarm event issues, after its trace line, the calls
of the uplink pipeline ending with `smtc_modem_request_uplink`, then
`smtc_modem_alarm_start_timer( PERIODICAL_UPLINK_DELAY_S )` exactly once, then
only the trace line of its result check, whatever codes the stack returns, and
leaves the loop running.  Consequently, for one Joined event followed by `N`
Alarm events, delivered over any number of callback runs that each drain the
queue, the callback runs return and the alarm is armed exactly `N + 1` times,
each time with the period 1800 s. -/
theorem C6_alarm_rearmed_once_per_alarm (cfg : Config) :
    (∀ (a : EventAnswers) (s : State), a.event_type = SMTC_MODEM_EVENT_ALARM →
      issued s (handle_event cfg a s) =
        info (TraceText.event_received SMTC_MODEM_EVENT_ALARM) ::
          (moisture_uplink_calls 101 a.adc_value a.rc_request_uplink ++
            Call.smtc_modem_alarm_start_timer PERIODICAL_UPLINK_DELAY_S ::
              ASSERT_SMTC_MODEM_RC_lines a.rc_alarm_start_timer) ∧
      alarm_periods (issued s (handle_event cfg a s)) = [1800] ∧
      (handle_event cfg a s).mcu_reset = s.mcu_reset) ∧
    (∀ (N : Nat) (batches : List (List EventAnswers)) (s : State),
      s.mcu_reset = false → (∀ b ∈ batches, is_drain b = true) →
      batches.flatten.map EventAnswers.event_type =
        SMTC_MODEM_EVENT_JOINED :: List.replicate N SMTC_MODEM_EVENT_ALARM →
      ∃ s', run_callbacks cfg batches s = some s' ∧
        alarm_periods (issued s s') = List.replicate (N + 1) 1800) := by
  constructor
  · intro a s h
    obtain ⟨ht, hr⟩ := handle_event_alarm cfg a s h
    refine ⟨issued_of_trace ht, ?_, hr⟩
    rw [issued_of_trace ht]
    simp [alarm_periods_append, alarm_periods_lines, alarm_periods_moisture_uplink_calls,
      alarm_periods, info, PERIODICAL_UPLINK_DELAY_S]
  · intro N batches s hs hd hev
    have hlen : batches.flatten.length = N + 1 := by
      have := congrArg List.length hev
      rw [List.length_map, List.length_cons, List.length_replicate] at this
      exact this
    have hall : ∀ a ∈ batches.flatten, a.event_type = SMTC_MODEM_EVENT_JOINED ∨
        a.event_type = SMTC_MODEM_EVENT_ALARM := by
      intro a ha
      have hm : a.event_type ∈ batches.flatten.map EventAnswers.event_type :=
        List.mem_map_of_mem _ ha
      rw [hev] at hm
      rcases List.mem_cons.mp hm with h | h
      · exact Or.inl h
      · exact Or.inr (List.eq_of_mem_replicate h)
    obtain ⟨s', cs, hrun, _, htr, hper⟩ := run_callbacks_periodic cfg batches s hs hd hall
    refine ⟨s', hrun, ?_⟩
    rw [issued_of_trace htr, hper, hlen]
    rfl

/-- Witness of C6: Joined, then two Alarm events in one callback run, the last
pass with every stack call answering `SMTC_MODEM_RC_BUSY`. -/
theorem C6_alarm_rearmed_once_per_alarm_witness :
    ∃ s', run_callbacks example_config joined_then_two_alarms State.init = some s' ∧
      alarm_periods (issued State.init s') = List.replicate (2 + 1) 1800 :=
  (C6_alarm_rearmed_once_per_alarm example_config).2 2 joined_then_two_alarms State.init
    (by decide) (by decide) (by decide)

theorem stack_calls_append (xs ys : List Call) :
    stack_calls (xs ++ ys) = stack_calls xs ++ stack_calls ys := by
  simp [stack_calls]

theorem stack_calls_lines (rc : smtc_modem_return_code_t) :
    stack_calls (ASSERT_SMTC_MODEM_RC_lines rc) = [] := by
  cases rc <;> rfl

theorem stack_calls_cons_lines (c : Call) (rc : smtc_modem_return_code_t) (rest : List Call) :
    stack_calls (c :: (ASSERT_SMTC_MODEM_RC_lines rc ++ rest)) =
      stack_calls [c] ++ stack_calls rest := by
  have e : c :: (ASSERT_SMTC_MODEM_RC_lines rc ++ rest) =
      [c] ++ (ASSERT_SMTC_MODEM_RC_lines rc ++ rest) := rfl
  rw [e, stack_calls_append, stack_calls_append, stack_calls_lines, List.nil_append]

theorem moisture_payload_uint16 (v : Nat) :
    moisture_payload (v % 2 ^ 16) = [(v >>> 8) &&& 0xFF, v &&& 0xFF] := by
  obtain ⟨h1, h2⟩ := byte_split v
  obtain ⟨h3, h4⟩ := byte_split (v % 2 ^ 16)
  rw [moisture_payload_eq, h1, h2, h3, h4]
  norm_num only
  have e1 : v % 65536 / 256 % 256 = v / 256 % 256 := by omega
  have e2 : v % 65536 % 256 = v % 256 := by omega
  rw [e1, e2]

theorem stack_calls_moisture_uplink_calls (port adc : Nat) (rc : smtc_modem_return_code_t) :
    stack_calls (moisture_uplink_calls port adc rc) =
      [Call.smtc_modem_request_uplink STACK_ID (port % 2 ^ 8) false
        [(adc >>> 8) &&& 0xFF, adc &&& 0xFF] 2] := by
  unfold moisture_uplink_calls
  rw [stack_calls_append, stack_calls_lines, moisture_payload_uint16]
  rfl

theorem provision_credentials_trace (cfg : Config) (a : EventAnswers) (s : State) :
    (provision_credentials cfg a s).trace = s.trace ++ credential_calls cfg a := by
  unfold provision_credentials credential_calls
  split <;> simp [ASSERT_SMTC_MODEM_RC]

theorem provision_credentials_mcu_reset (cfg : Config) (a : EventAnswers) (s : State) :
    (provision_credentials cfg a s).mcu_reset = s.mcu_reset := by
  unfold provision_credentials
  split <;> simp [ASSERT_SMTC_MODEM_RC]

/-- The calls of the `SMTC_MODEM_EVENT_RESET` case. -/
theorem handle_event_reset (cfg : Config) (a : EventAnswers) (s : State)
    (h : a.event_type = SMTC_MODEM_EVENT_RESET) :
    (handle_event cfg a s).trace = s.trace ++
        (info (TraceText.event_received SMTC_MODEM_EVENT_RESET) ::
          (credential_calls cfg a ++
            Call.smtc_modem_set_region STACK_ID ::
              (ASSERT_SMTC_MODEM_RC_lines a.rc_set_region ++
            Call.smtc_modem_join_network STACK_ID ::
              (ASSERT_SMTC_MODEM_RC_lines a.rc_join_network ++
            Call.smtc_modem_relay_tx_enable STACK_ID 0 ::
              ASSERT_SMTC_MODEM_RC_lines a.rc_relay_tx_enable)))) ∧
      (handle_event cfg a s).mcu_reset = s.mcu_reset := by
  unfold handle_event
  rw [h]
  simp [ASSERT_SMTC_MODEM_RC, provision_credentials_trace, provision_credentials_mcu_reset]

theorem stack_calls_credential_calls (cfg : Config) (a : EventAnswers) :
    stack_calls (credential_calls cfg a) =
      if cfg.USE_LR11XX_CREDENTIALS = false then
        [Call.smtc_modem_set_deveui STACK_ID Credential.user_dev_eui,
         Call.smtc_modem_set_joineui STACK_ID Credential.user_join_eui,
         Call.smtc_modem_set_appkey STACK_ID Credential.user_gen_app_key,
         Call.smtc_modem_set_nwkkey STACK_ID Credential.user_app_key]
      else
        [Call.smtc_modem_get_chip_eui STACK_ID Credential.chip_eui,
         Call.smtc_modem_get_pin STACK_ID Credential.chip_pin] := by
  unfold credential_calls
  split
  · rw [stack_calls_cons_lines, stack_calls_cons_lines, stack_calls_cons_lines]
    have e : ∀ c rc, stack_calls (c :: ASSERT_SMTC_MODEM_RC_lines rc) = stack_calls [c] := by
      intro c rc
      have := stack_calls_cons_lines c rc []
      simpa [stack_calls] using this
    rw [e]
    rfl
  · rw [stack_calls_cons_lines]
    have e : ∀ c d rc tail, stack_calls (c :: d :: (ASSERT_SMTC_MODEM_RC_lines rc ++ tail)) =
        stack_calls [c] ++ (stack_calls [d] ++ stack_calls tail) := by
      intro c d rc tail
      have e1 : c :: d :: (ASSERT_SMTC_MODEM_RC_lines rc ++ tail) =
          [c] ++ (d :: (ASSERT_SMTC_MODEM_RC_lines rc ++ tail)) := rfl
      rw [e1, stack_calls_append, stack_calls_cons_lines]
    rw [e]
    rfl

/-- C7: the handler of a Reset event issues, according to the build
configuration, either the four push calls (`set_deveui`, `set_joineui`,
`set_appkey`, `set_nwkkey`, in that order) or the two pull calls
(`get_chip_eui`, `get_pin`), never calls of both paths, and then `set_region`,
`join_network` and `relay_tx_enable`, each once and in that order; these are
all its stack calls, whatever code each of them returns. -/
theorem C7_reset_one_credential_path_then_join (cfg : Config) (a : EventAnswers) (s : State)
    (h : a.event_type = SMTC_MODEM_EVENT_RESET) :
    stack_calls (issued s (handle_event cfg a s)) =
        (if cfg.USE_LR11XX_CREDENTIALS = false then
          [Call.smtc_modem_set_deveui STACK_ID Credential.user_dev_eui,
           Call.smtc_modem_set_joineui STACK_ID Credential.user_join_eui,
           Call.smtc_modem_set_appkey STACK_ID Credential.user_gen_app_key,
           Call.smtc_modem_set_nwkkey STACK_ID Credential.user_app_key]
        else
          [Call.smtc_modem_get_chip_eui STACK_ID Credential.chip_eui,
           Call.smtc_modem_get_pin STACK_ID Credential.chip_pin]) ++
        [Call.smtc_modem_set_region STACK_ID, Call.smtc_modem_join_network STACK_ID,
         Call.smtc_modem_relay_tx_enable STACK_ID 0] ∧
      issued s (handle_event cfg a s) =
        info (TraceText.event_received SMTC_MODEM_EVENT_RESET) ::
          (credential_calls cfg a ++
            Call.smtc_modem_set_region STACK_ID ::
              (ASSERT_SMTC_MODEM_RC_lines a.rc_set_region ++
            Call.smtc_modem_join_network STACK_ID ::
              (ASSERT_SMTC_MODEM_RC_lines a.rc_join_network ++
            Call.smtc_modem_relay_tx_enable STACK_ID 0 ::
              ASSERT_SMTC_MODEM_RC_lines a.rc_relay_tx_enable))) ∧
      (handle_event cfg a s).mcu_reset = s.mcu_reset := by
  obtain ⟨ht, hr⟩ := handle_event_reset cfg a s h
  refine ⟨?_, issued_of_trace ht, hr⟩
  · rw [issued_of_trace ht]
    have e : ∀ (c : Call) (rest : List Call), c :: rest = [c] ++ rest := fun _ _ => rfl
    rw [e (info _), stack_calls_append, stack_calls_append, stack_calls_credential_calls,
      stack_calls_cons_lines, stack_calls_cons_lines]
    have e2 : ∀ c rc, stack_calls (c :: ASSERT_SMTC_MODEM_RC_lines rc) = stack_calls [c] := by
      intro c rc
      have := stack_calls_cons_lines c rc []
      simpa [stack_calls] using this
    rw [e2]
    rfl

/-- Witness of C7: a Reset event on a stack where every call fails. -/
theorem C7_reset_one_credential_path_then_join_witness :
    stack_calls (issued State.init (handle_event example_config failing_reset State.init)) =
      [Call.smtc_modem_set_deveui 0 Credential.user_dev_eui,
       Call.smtc_modem_set_joineui 0 Credential.user_join_eui,
       Call.smtc_modem_set_appkey 0 Credential.user_gen_app_key,
       Call.smtc_modem_set_nwkkey 0 Credential.user_app_key,
       Call.smtc_modem_set_region 0, Call.smtc_modem_join_network 0,
       Call.smtc_modem_relay_tx_enable 0 0] :=
  (C7_reset_one_credential_path_then_join example_config failing_reset State.init
    (by decide)).1

/-- C8: the handler of a Joined event, for every value `V` returned by the
ADC, makes exactly two stack calls: one `smtc_modem_request_uplink` on port
101, unconfirmed, of length 2 with payload `[(V >> 8) & 0xFF, V & 0xFF]`, then
`smtc_modem_alarm_start_timer( PERIODICAL_UPLINK_DELAY_S )`; for `V = 2730`
the bytes are `[0x0A, 0xAA]`. -/
theorem C8_joined_uplink_then_alarm (cfg : Config) (a : EventAnswers) (s : State) (V : Nat)
    (h : a.event_type = SMTC_MODEM_EVENT_JOINED) (hV : a.adc_value = V) :
    stack_calls (issued s (handle_event cfg a s)) =
        [Call.smtc_modem_request_uplink STACK_ID 101 false [(V >>> 8) &&& 0xFF, V &&& 0xFF] 2,
         Call.smtc_modem_alarm_start_timer PERIODICAL_UPLINK_DELAY_S] ∧
      issued s (handle_event cfg a s) =
        info (TraceText.event_received SMTC_MODEM_EVENT_JOINED) ::
          info TraceText.modem_is_now_joined ::
          (moisture_uplink_calls 101 V a.rc_request_uplink ++
            Call.smtc_modem_alarm_start_timer PERIODICAL_UPLINK_DELAY_S ::
              ASSERT_SMTC_MODEM_RC_lines a.rc_alarm_start_timer) ∧
      (V = 2730 → [(V >>> 8) &&& 0xFF, V &&& 0xFF] = [0x0A, 0xAA]) := by
  obtain ⟨ht, _⟩ := handle_event_joined cfg a s h
  rw [hV] at ht
  refine ⟨?_, issued_of_trace ht, ?_⟩
  · rw [issued_of_trace ht]
    have e : ∀ (c d : Call) (rest : List Call), c :: d :: rest = [c, d] ++ rest :=
      fun _ _ _ => rfl
    have e2 : ∀ c rc, stack_calls (c :: ASSERT_SMTC_MODEM_RC_lines rc) = stack_calls [c] := by
      intro c rc
      have := stack_calls_cons_lines c rc []
      simpa [stack_calls] using this
    rw [e (info _), stack_calls_append, stack_calls_append, stack_calls_moisture_uplink_calls,
      e2]
    rfl
  · intro hv
    subst hv
    decide

/-- Witness of C8: sensor value 2730 (0x0AAA). -/
theorem C8_joined_uplink_then_alarm_witness :
    stack_calls (issued State.init
        (handle_event example_config (EventAnswers.ok SMTC_MODEM_EVENT_JOINED 0 2730)
          State.init)) =
      [Call.smtc_modem_request_uplink 0 101 false [0x0A, 0xAA] 2,
       Call.smtc_modem_alarm_start_timer 1800] :=
  (C8_joined_uplink_then_alarm example_config (EventAnswers.ok SMTC_MODEM_EVENT_JOINED 0 2730)
    State.init 2730 (by decide) (by decide)).1

/-- C9: when the button check runs with `user_button_is_press` set, the flag
is cleared and `smtc_modem_get_status` is called; the uplink pipeline runs
exactly when the returned mask has the Joined bit.  For a mask without the
bit, the only call is the status query, no variable other than the flag
changes, and a later button check finds nothing to do whatever the status is
then: the press is not kept for later. -/
theorem C9_unjoined_press_discarded (cfg : Config) (status_mask adc : Nat)
    (rc : smtc_modem_return_code_t) (s : State) (hpress : s.user_button_is_press = true) :
    (check_button cfg status_mask adc rc s).user_button_is_press = false ∧
      ((status_mask % 2 ^ 32) &&& cfg.SMTC_MODEM_STATUS_JOINED = cfg.SMTC_MODEM_STATUS_JOINED →
        issued s (check_button cfg status_mask adc rc s) =
          Call.smtc_modem_get_status STACK_ID :: moisture_uplink_calls 102 adc rc) ∧
      ((status_mask % 2 ^ 32) &&& cfg.SMTC_MODEM_STATUS_JOINED ≠ cfg.SMTC_MODEM_STATUS_JOINED →
        check_button cfg status_mask adc rc s =
          { s with user_button_is_press := false
                   trace := s.trace ++ [Call.smtc_modem_get_status STACK_ID] } ∧
        issued s (check_button cfg status_mask adc rc s) =
          [Call.smtc_modem_get_status STACK_ID] ∧
        (∀ (later_mask later_adc : Nat) (later_rc : smtc_modem_return_code_t),
          check_button cfg later_mask later_adc later_rc
              (check_button cfg status_mask adc rc s) =
            check_button cfg status_mask adc rc s)) := by
  refine ⟨?_, ?_, ?_⟩
  · unfold check_button
    rw [if_pos hpress]
    dsimp only
    split
    · simp [send_uplink_moisture_on_port, ASSERT_SMTC_MODEM_RC, State.emit]
    · rfl
  · intro hj
    apply issued_of_trace
    unfold check_button
    rw [if_pos hpress]
    dsimp only
    rw [if_pos hj, send_uplink_moisture_on_port_trace_eq]
    simp [State.emit]
  · intro hj
    have hcb : check_button cfg status_mask adc rc s =
        { s with user_button_is_press := false
                 trace := s.trace ++ [Call.smtc_modem_get_status STACK_ID] } := by
      unfold check_button
      rw [if_pos hpress]
      dsimp only
      rw [if_neg hj]
      rfl
    refine ⟨hcb, ?_, ?_⟩
    · apply issued_of_trace
      rw [hcb]
    · intro m2 adc2 rc2
      rw [hcb]
      simp [check_button]

/-- Witness of C9: a press on a device whose status mask is 0x40 (joining, not
joined). -/
theorem C9_unjoined_press_discarded_witness :
    pressed.user_button_is_press = true ∧
      (check_button example_config 0x40 2730 SMTC_MODEM_RC_OK pressed).user_button_is_press
        = false ∧
      issued pressed (check_button example_config 0x40 2730 SMTC_MODEM_RC_OK pressed) =
        [Call.smtc_modem_get_status STACK_ID] :=
  ⟨by decide,
   (C9_unjoined_press_discarded example_config 0x40 2730 SMTC_MODEM_RC_OK pressed
     (by decide)).1,
   ((C9_unjoined_press_discarded example_config 0x40 2730 SMTC_MODEM_RC_OK pressed
     (by decide)).2.2 (by decide)).2.1⟩

/-! ### Result checks -/

theorem actions_append (xs ys : List Call) : actions (xs ++ ys) = actions xs ++ actions ys := by
  simp [actions]

theorem actions_lines (rc : smtc_modem_return_code_t) :
    actions (ASSERT_SMTC_MODEM_RC_lines rc) = [] := by
  cases rc <;> rfl

theorem actions_nil : actions [] = [] := rfl

theorem actions_cons (c : Call) (rest : List Call) :
    actions (c :: rest) = if is_trace_line c = true then actions rest else c :: actions rest := by
  cases h : is_trace_line c <;> simp [actions, h]

theorem actions_cons_lines (c : Call) (rc : smtc_modem_return_code_t) :
    actions (c :: ASSERT_SMTC_MODEM_RC_lines rc) = actions [c] := by
  have e : c :: ASSERT_SMTC_MODEM_RC_lines rc = [c] ++ ASSERT_SMTC_MODEM_RC_lines rc := rfl
  rw [e, actions_append, actions_lines, List.append_nil]

theorem without_trace_lines_emit (s : State) (cs : List Call) :
    (s.emit cs).without_trace_lines = s.without_trace_lines.emit (actions cs) := by
  simp [State.without_trace_lines, State.emit, actions_append]

theorem SameActions.same_emit {s t : State} (h : SameActions s t) (cs ds : List Call)
    (hc : actions cs = actions ds) : SameActions (s.emit cs) (t.emit ds) := by
  unfold SameActions at *
  rw [without_trace_lines_emit, without_trace_lines_emit, h, hc]

theorem SameActions.same_emit_right {s t : State} (h : SameActions s t) (ds : List Call)
    (hc : actions ds = []) : SameActions s (t.emit ds) := by
  unfold SameActions at *
  rw [without_trace_lines_emit, ← h, hc]
  simp [State.emit]

theorem SameActions.ASSERT {s t : State} (h : SameActions s t) (call : Call)
    (rc rc2 : smtc_modem_return_code_t) :
    SameActions (ASSERT_SMTC_MODEM_RC call rc s) (ASSERT_SMTC_MODEM_RC call rc2 t) :=
  SameActions.same_emit h _ _ (by rw [actions_cons_lines, actions_cons_lines])

theorem SameActions.fields {s t : State} (h : SameActions s t) :
    s.user_button_is_press = t.user_button_is_press ∧
      s.last_press_timestamp_ms = t.last_press_timestamp_ms ∧
      s.readValue = t.readValue ∧ s.rx_payload = t.rx_payload ∧
      s.rx_payload_size = t.rx_payload_size ∧ s.rx_fport = t.rx_fport ∧
      s.rx_remaining = t.rx_remaining ∧ s.mcu_reset = t.mcu_reset ∧
      actions s.trace = actions t.trace := by
  unfold SameActions State.without_trace_lines at h
  simpa using h

theorem SameActions.of_fields {s t : State}
    (h : s.user_button_is_press = t.user_button_is_press ∧
      s.last_press_timestamp_ms = t.last_press_timestamp_ms ∧
      s.readValue = t.readValue ∧ s.rx_payload = t.rx_payload ∧
      s.rx_payload_size = t.rx_payload_size ∧ s.rx_fport = t.rx_fport ∧
      s.rx_remaining = t.rx_remaining ∧ s.mcu_reset = t.mcu_reset ∧
      actions s.trace = actions t.trace) : SameActions s t := by
  unfold SameActions State.without_trace_lines
  simpa using h

theorem SameActions.send_uplink {s t : State} (h : SameActions s t) (port adc : Nat)
    (rc rc2 : smtc_modem_return_code_t) :
    SameActions (send_uplink_moisture_on_port port adc rc s)
      (send_uplink_moisture_on_port port adc rc2 t) := by
  unfold send_uplink_moisture_on_port
  dsimp only
  refine SameActions.ASSERT ?_ _ _ _
  refine SameActions.same_emit ?_ _ _ rfl
  obtain ⟨h1, h2, _, h4, h5, h6, h7, h8, h9⟩ := (SameActions.same_emit h
    [Call.hal_gpio_set_value Pin.PA_13 1, Call.HAL_Delay 5000, Call.HAL_ADC_Start,
      Call.HAL_ADC_PollForConversion 100, Call.HAL_ADC_GetValue] _ rfl).fields
  exact SameActions.of_fields ⟨h1, h2, rfl, h4, h5, h6, h7, h8, h9⟩

theorem SameActions.through_provision_credentials {s t : State} (h : SameActions s t) (cfg : Config)
    (a b : EventAnswers) :
    SameActions (provision_credentials cfg a s) (provision_credentials cfg b t) := by
  unfold provision_credentials
  dsimp only
  split
  · exact ((((h.ASSERT _ _ _).ASSERT _ _ _).ASSERT _ _ _).ASSERT _ _ _)
  · exact ((((h.ASSERT _ _ _).same_emit _ _ rfl).ASSERT _ _ _).same_emit _ _ rfl)

/-- The handler of an event makes the same calls (trace lines apart) and
leaves the same variables whatever the stack's return codes are. -/
theorem SameActions.through_handle_event {s t : State} (h : SameActions s t) (cfg : Config)
    (a : EventAnswers) :
    SameActions (handle_event cfg a s) (handle_event cfg (all_ok a) t) := by
  unfold handle_event
  have he : (all_ok a).event_type = a.event_type := rfl
  have hd : (all_ok a).downlink = a.downlink := rfl
  have hq : (all_ok a).rc_relay_query = SMTC_MODEM_RC_OK := rfl
  have hv : (all_ok a).adc_value = a.adc_value := rfl
  rw [he]
  split
  · exact ((((h.same_emit _ _ rfl).through_provision_credentials cfg a (all_ok a)).ASSERT _ _ _).ASSERT _ _ _).ASSERT
      _ _ _
  · dsimp only
    rw [hv]
    exact (((h.same_emit _ _ rfl).send_uplink _ _ _ _).ASSERT _ _ _)
  · dsimp only
    rw [hv]
    exact (((h.same_emit _ _ rfl).send_uplink _ _ _ _).ASSERT _ _ _)
  · exact h.same_emit _ _ rfl
  · dsimp only
    rw [hd]
    have h2 := (h.same_emit [info (TraceText.event_received SMTC_MODEM_EVENT_DOWNDATA)]
      [info (TraceText.event_received SMTC_MODEM_EVENT_DOWNDATA)] rfl).ASSERT
      Call.smtc_modem_get_downlink_data a.rc_get_downlink_data (all_ok a).rc_get_downlink_data
    cases a.downlink with
    | none => exact h2.same_emit _ _ (by
        obtain ⟨_, _, _, h4, h5, h6, _⟩ := h2.fields
        rw [h4, h5, h6])
    | some d =>
      dsimp only
      refine SameActions.same_emit ?_ _ _ rfl
      obtain ⟨h1, h2, h3, _, _, _, _, h8, h9⟩ := h2.fields
      exact SameActions.of_fields ⟨h1, h2, h3, rfl, rfl, rfl, rfl, h8, h9⟩
  · exact h.same_emit _ _ rfl
  · split
    · exact h.same_emit _ _ rfl
    · exact h.same_emit _ _ rfl
  · dsimp only
    split
    · rename_i reboot _ _
      obtain ⟨h1, h2, h3, h4, h5, h6, h7, _, h9⟩ := (h.same_emit
          [info (TraceText.event_received (SMTC_MODEM_EVENT_FIRMWARE_MANAGEMENT reboot))]
          [info (TraceText.event_received (SMTC_MODEM_EVENT_FIRMWARE_MANAGEMENT reboot))]
          rfl).fields
      refine SameActions.of_fields ⟨h1, h2, h3, h4, h5, h6, h7, rfl, ?_⟩
      unfold smtc_modem_hal_reset_mcu
      show actions (_ ++ _) = actions (_ ++ _)
      rw [actions_append, actions_append, h9]
    · exact h.same_emit _ _ rfl
  · dsimp only
    rw [hq, if_pos rfl]
    split
    · exact (h.same_emit _ _ rfl).same_emit _ _ rfl
    · exact (h.same_emit _ _ rfl).same_emit_right _ rfl
  · dsimp only
    rw [hq, if_pos rfl]
    split
    · exact (h.same_emit _ _ rfl).same_emit _ _ rfl
    · exact (h.same_emit _ _ rfl).same_emit_right _ rfl
  · dsimp only
    rw [hq, if_pos rfl]
    split
    · exact (h.same_emit _ _ rfl).same_emit _ _ rfl
    · exact (h.same_emit _ _ rfl).same_emit_right _ rfl
  · exact h.same_emit _ _ rfl
  · exact h.same_emit _ _ rfl

theorem SameActions.same_refl (s : State) : SameActions s s := rfl

/-- The dispatch loop makes the same passes and the same calls (trace lines
apart) whatever the stack's return codes are. -/
theorem SameActions.through_callback_loop (cfg : Config) (answers : List EventAnswers) :
    ∀ s t : State, SameActions s t →
      Option.map State.without_trace_lines (modem_event_callback_loop cfg answers s) =
        Option.map State.without_trace_lines
          (modem_event_callback_loop cfg (answers.map all_ok) t) := by
  induction answers with
  | nil => intro s t _; rfl
  | cons a rest ih =>
    intro s t h
    have hp : (all_ok a).event_pending_count = a.event_pending_count := rfl
    have h2 : SameActions
        (handle_event cfg a (ASSERT_SMTC_MODEM_RC Call.smtc_modem_get_event a.rc_get_event s))
        (handle_event cfg (all_ok a)
          (ASSERT_SMTC_MODEM_RC Call.smtc_modem_get_event (all_ok a).rc_get_event t)) :=
      (h.ASSERT _ _ _).through_handle_event cfg a
    have hr := h2.fields.2.2.2.2.2.2.2.1
    simp only [List.map_cons, modem_event_callback_loop, hp]
    rw [← hr]
    by_cases hreset : (handle_event cfg a
        (ASSERT_SMTC_MODEM_RC Call.smtc_modem_get_event a.rc_get_event s)).mcu_reset = true
    · rw [if_pos hreset, if_pos hreset]
      exact congrArg some h2
    · rw [if_neg hreset, if_neg hreset]
      by_cases hpend : a.event_pending_count % 2 ^ 8 > 0
      · rw [if_pos hpend, if_pos hpend]
        exact ih _ _ h2
      · rw [if_neg hpend, if_neg hpend]
        exact congrArg some h2

/-- C10: `ASSERT_SMTC_MODEM_RC` prints nothing for OK and exactly one line for
each of the seven other codes: at error severity for NOT_INIT, INVALID, BUSY,
FAIL and INVALID_STACK_ID, at warning severity for NO_TIME, at informational
severity for NO_EVENT.  The checked call is made and only the trace grows, so
control reaches the next statement; and a whole run of `modem_event_callback`
makes the same passes and the same calls, trace lines apart, and leaves the
same variables, as the run in which every call returns OK: no return code
aborts the dispatch loop. -/
theorem C10_result_check_logs_and_continues :
    ASSERT_SMTC_MODEM_RC_lines SMTC_MODEM_RC_OK = [] ∧
      ASSERT_SMTC_MODEM_RC_lines SMTC_MODEM_RC_NOT_INIT =
        [Call.SMTC_HAL_TRACE Severity.ERROR (TraceText.rc_name SMTC_MODEM_RC_NOT_INIT)] ∧
      ASSERT_SMTC_MODEM_RC_lines SMTC_MODEM_RC_INVALID =
        [Call.SMTC_HAL_TRACE Severity.ERROR (TraceText.rc_name SMTC_MODEM_RC_INVALID)] ∧
      ASSERT_SMTC_MODEM_RC_lines SMTC_MODEM_RC_BUSY =
        [Call.SMTC_HAL_TRACE Severity.ERROR (TraceText.rc_name SMTC_MODEM_RC_BUSY)] ∧
      ASSERT_SMTC_MODEM_RC_lines SMTC_MODEM_RC_FAIL =
        [Call.SMTC_HAL_TRACE Severity.ERROR (TraceText.rc_name SMTC_MODEM_RC_FAIL)] ∧
      ASSERT_SMTC_MODEM_RC_lines SMTC_MODEM_RC_NO_TIME =
        [Call.SMTC_HAL_TRACE Severity.WARNING (TraceText.rc_name SMTC_MODEM_RC_NO_TIME)] ∧
      ASSERT_SMTC_MODEM_RC_lines SMTC_MODEM_RC_INVALID_STACK_ID =
        [Call.SMTC_HAL_TRACE Severity.ERROR
          (TraceText.rc_name SMTC_MODEM_RC_INVALID_STACK_ID)] ∧
      ASSERT_SMTC_MODEM_RC_lines SMTC_MODEM_RC_NO_EVENT =
        [Call.SMTC_HAL_TRACE Severity.INFO (TraceText.rc_name SMTC_MODEM_RC_NO_EVENT)] ∧
      (∀ (call : Call) (rc : smtc_modem_return_code_t) (s : State),
        issued s (ASSERT_SMTC_MODEM_RC call rc s) = call :: ASSERT_SMTC_MODEM_RC_lines rc ∧
        (ASSERT_SMTC_MODEM_RC call rc s).mcu_reset = s.mcu_reset ∧
        SameActions (ASSERT_SMTC_MODEM_RC call rc s)
          (ASSERT_SMTC_MODEM_RC call SMTC_MODEM_RC_OK s)) ∧
      (∀ (cfg : Config) (answers : List EventAnswers) (s : State),
        Option.map State.without_trace_lines (modem_event_callback cfg answers s) =
          Option.map State.without_trace_lines
            (modem_event_callback cfg (answers.map all_ok) s)) := by
  refine ⟨rfl, rfl, rfl, rfl, rfl, rfl, rfl, rfl, ?_, ?_⟩
  · intro call rc s
    exact ⟨issued_of_trace rfl, rfl, (SameActions.same_refl s).ASSERT call rc SMTC_MODEM_RC_OK⟩
  · intro cfg answers s
    exact SameActions.through_callback_loop cfg answers _ _ (SameActions.same_refl _)

/-! ### Debounce timestamp -/

/-- One run of `user_button_callback` under a clock that has not gone back:
the timestamp is kept, or replaced by the strictly larger second reading. -/
theorem user_button_callback_timestamp (t ts : Nat) (s : State)
    (h0 : s.last_press_timestamp_ms ≤ t) (h1 : t ≤ ts) (h2 : ts < 2 ^ 32) :
    (edge_accepted t s = false →
      (user_button_callback t ts s).last_press_timestamp_ms = s.last_press_timestamp_ms) ∧
    (edge_accepted t s = true →
      s.last_press_timestamp_ms < (user_button_callback t ts s).last_press_timestamp_ms ∧
      (user_button_callback t ts s).last_press_timestamp_ms = ts) := by
  obtain ⟨hacc, hrej⟩ := user_button_callback_vars t ts s
  refine ⟨fun h => (hrej h).1, fun h => ?_⟩
  have hs := (hacc h).1
  rw [Nat.mod_eq_of_lt h2] at hs
  unfold edge_accepted at h
  rw [debounce_accepts_iff t _ (by omega) h0] at h
  exact ⟨by omega, hs⟩

theorem user_button_callback_timestamp_bounds (t ts : Nat) (s : State)
    (h0 : s.last_press_timestamp_ms ≤ t) (h1 : t ≤ ts) (h2 : ts < 2 ^ 32) :
    s.last_press_timestamp_ms ≤ (user_button_callback t ts s).last_press_timestamp_ms ∧
      (user_button_callback t ts s).last_press_timestamp_ms ≤ ts := by
  obtain ⟨hrej, hacc⟩ := user_button_callback_timestamp t ts s h0 h1 h2
  cases h : edge_accepted t s with
  | false => rw [hrej h]; omega
  | true => obtain ⟨ha, hb⟩ := hacc h; omega

theorem clock_nondecreasing_mono (es : List (Nat × Nat)) (t0 t1 : Nat) (h : t1 ≤ t0)
    (hc : clock_nondecreasing t0 es = true) : clock_nondecreasing t1 es = true := by
  cases es with
  | nil => rfl
  | cons e rest =>
    obtain ⟨a, b⟩ := e
    simp only [clock_nondecreasing, Bool.and_eq_true, decide_eq_true_eq] at hc ⊢
    exact ⟨⟨⟨by omega, hc.1.1.2⟩, hc.1.2⟩, hc.2⟩

theorem timestamp_history_ge (es : List (Nat × Nat)) :
    ∀ s : State, clock_nondecreasing s.last_press_timestamp_ms es = true →
      ∀ x ∈ timestamp_history es s, s.last_press_timestamp_ms ≤ x := by
  induction es with
  | nil =>
    intro s _ x hx
    simp only [timestamp_history, List.mem_singleton] at hx
    omega
  | cons e rest ih =>
    obtain ⟨a, b⟩ := e
    intro s hc x hx
    simp only [clock_nondecreasing, Bool.and_eq_true, decide_eq_true_eq] at hc
    obtain ⟨⟨⟨h0, h1⟩, h2⟩, hrest⟩ := hc
    obtain ⟨hlo, hhi⟩ := user_button_callback_timestamp_bounds a b s h0 h1 h2
    simp only [timestamp_history, List.mem_cons] at hx
    rcases hx with hx | hx
    · omega
    · have := ih (user_button_callback a b s)
        (clock_nondecreasing_mono rest b _ hhi hrest) x hx
      omega

theorem serve_button_irqs_timestamp_ge (es : List (Nat × Nat)) :
    ∀ s : State, clock_nondecreasing s.last_press_timestamp_ms es = true →
      s.last_press_timestamp_ms ≤ (serve_button_irqs es s).last_press_timestamp_ms := by
  induction es with
  | nil => intro s _; exact le_refl _
  | cons e rest ih =>
    obtain ⟨a, b⟩ := e
    intro s hc
    simp only [clock_nondecreasing, Bool.and_eq_true, decide_eq_true_eq] at hc
    obtain ⟨⟨⟨h0, h1⟩, h2⟩, hrest⟩ := hc
    obtain ⟨hlo, hhi⟩ := user_button_callback_timestamp_bounds a b s h0 h1 h2
    have := ih (user_button_callback a b s) (clock_nondecreasing_mono rest b _ hhi hrest)
    simp only [serve_button_irqs]
    omega

theorem timestamp_history_pairwise (es : List (Nat × Nat)) :
    ∀ s : State, clock_nondecreasing s.last_press_timestamp_ms es = true →
      List.Pairwise (fun x y => x ≤ y) (timestamp_history es s) := by
  induction es with
  | nil => intro s _; simp [timestamp_history]
  | cons e rest ih =>
    obtain ⟨a, b⟩ := e
    intro s hc
    have hge := timestamp_history_ge ((a, b) :: rest) s hc
    simp only [clock_nondecreasing, Bool.and_eq_true, decide_eq_true_eq] at hc
    obtain ⟨⟨⟨h0, h1⟩, h2⟩, hrest⟩ := hc
    obtain ⟨hlo, hhi⟩ := user_button_callback_timestamp_bounds a b s h0 h1 h2
    simp only [timestamp_history, List.pairwise_cons]
    refine ⟨fun x hx => hge x ?_, ih _ (clock_nondecreasing_mono rest b _ hhi hrest)⟩
    simp only [timestamp_history, List.mem_cons]
    exact Or.inr hx

/-- C13: under a non-decreasing millisecond clock (readings below `2 ^ 32`, the
first one not before the stored timestamp), the successive values of
`last_press_timestamp_ms` over any sequence of `user_button_callback` runs
never decrease; in each run a rejected edge leaves the timestamp unchanged and
an accepted edge replaces it with a strictly larger value, the clock reading
it stores. -/
theorem C13_debounce_timestamp_monotonic (es : List (Nat × Nat)) (s : State)
    (h : clock_nondecreasing s.last_press_timestamp_ms es = true) :
    List.Pairwise (fun x y => x ≤ y) (timestamp_history es s) ∧
      s.last_press_timestamp_ms ≤ (serve_button_irqs es s).last_press_timestamp_ms ∧
      (∀ (t ts : Nat) (s1 : State),
        s1.last_press_timestamp_ms ≤ t → t ≤ ts → ts < 2 ^ 32 →
        (edge_accepted t s1 = false →
          (user_button_callback t ts s1).last_press_timestamp_ms =
            s1.last_press_timestamp_ms) ∧
        (edge_accepted t s1 = true →
          s1.last_press_timestamp_ms <
            (user_button_callback t ts s1).last_press_timestamp_ms ∧
          (user_button_callback t ts s1).last_press_timestamp_ms = ts)) :=
  ⟨timestamp_history_pairwise es s h, serve_button_irqs_timestamp_ge es s h,
    fun t ts s1 h0 h1 h2 => user_button_callback_timestamp t ts s1 h0 h1 h2⟩

/-- Witness of C13: four edges from the initial state; the edges at 300 ms and
1400 ms are rejected, those at 1000 ms and 2000 ms accepted. -/
theorem C13_debounce_timestamp_monotonic_witness :
    timestamp_history four_edges State.init = [0, 0, 1001, 1001, 2001] ∧
      List.Pairwise (fun x y => x ≤ y) (timestamp_history four_edges State.init) :=
  ⟨by decide, (C13_debounce_timestamp_monotonic four_edges State.init (by decide)).1⟩

/-! ### Steps that stay out of the loop skeleton -/

theorem HandlerStep.handler_refl (s : State) : HandlerStep s s := ⟨[], by simp, by simp⟩

theorem HandlerStep.handler_trans {a b c : State} (h1 : HandlerStep a b) (h2 : HandlerStep b c) :
    HandlerStep a c := by
  obtain ⟨xs, hx, hxs⟩ := h1
  obtain ⟨ys, hy, hys⟩ := h2
  refine ⟨xs ++ ys, by rw [hy, hx, List.append_assoc], ?_⟩
  intro c hc
  rcases List.mem_append.mp hc with h | h
  · exact hxs c h
  · exact hys c h

theorem HandlerStep.handler_emit (s : State) (cs : List Call) (h : ∀ c ∈ cs, is_loop_call c = false) :
    HandlerStep s (s.emit cs) := ⟨cs, rfl, h⟩

theorem ASSERT_SMTC_MODEM_RC_lines_handler_step (rc : smtc_modem_return_code_t) :
    ∀ c ∈ ASSERT_SMTC_MODEM_RC_lines rc, is_loop_call c = false := by
  cases rc <;> simp [ASSERT_SMTC_MODEM_RC_lines, is_loop_call]

theorem ASSERT_SMTC_MODEM_RC_handler_step (call : Call) (rc : smtc_modem_return_code_t) (s : State)
    (h : is_loop_call call = false) : HandlerStep s (ASSERT_SMTC_MODEM_RC call rc s) := by
  refine HandlerStep.handler_emit s _ ?_
  intro c hc
  rcases List.mem_cons.mp hc with h1 | h1
  · rw [h1]; exact h
  · exact ASSERT_SMTC_MODEM_RC_lines_handler_step rc c h1

theorem user_button_callback_handler_step (t1 t2 : Nat) (s : State) :
    HandlerStep s (user_button_callback t1 t2 s) := by
  unfold user_button_callback
  by_cases h : debounce_accepts t1 s.last_press_timestamp_ms = true
  · simp only [emit_last_press_timestamp_ms, h, if_true]
    exact ⟨_, by simp [List.append_assoc]; rfl, by simp [is_loop_call]⟩
  · simp only [emit_last_press_timestamp_ms, h]
    exact HandlerStep.handler_emit s _ (by simp [is_loop_call])

theorem serve_button_irqs_handler_step (es : List (Nat × Nat)) (s : State) :
    HandlerStep s (serve_button_irqs es s) := by
  induction es generalizing s with
  | nil => exact HandlerStep.handler_refl s
  | cons e rest ih =>
    obtain ⟨t1, t2⟩ := e
    exact HandlerStep.handler_trans (user_button_callback_handler_step t1 t2 s) (ih _)

theorem send_uplink_moisture_on_port_handler_step (port adc : Nat) (rc : smtc_modem_return_code_t)
    (s : State) : HandlerStep s (send_uplink_moisture_on_port port adc rc s) := by
  unfold send_uplink_moisture_on_port
  dsimp only
  refine HandlerStep.handler_trans ?_ (ASSERT_SMTC_MODEM_RC_handler_step _ _ _ (by rfl))
  exact ⟨[Call.hal_gpio_set_value Pin.PA_13 1, Call.HAL_Delay 5000, Call.HAL_ADC_Start,
          Call.HAL_ADC_PollForConversion 100, Call.HAL_ADC_GetValue,
          Call.hal_trace_print_var (adc % 2 ^ 16), Call.HAL_ADC_Stop,
          Call.hal_gpio_set_value Pin.PA_13 0], by simp [State.emit], by simp [is_loop_call]⟩

theorem provision_credentials_handler_step (cfg : Config) (a : EventAnswers) (s : State) :
    HandlerStep s (provision_credentials cfg a s) := by
  unfold provision_credentials
  dsimp only
  split
  · refine HandlerStep.handler_trans ?_ (ASSERT_SMTC_MODEM_RC_handler_step _ _ _ (by rfl))
    refine HandlerStep.handler_trans ?_ (ASSERT_SMTC_MODEM_RC_handler_step _ _ _ (by rfl))
    refine HandlerStep.handler_trans ?_ (ASSERT_SMTC_MODEM_RC_handler_step _ _ _ (by rfl))
    exact ASSERT_SMTC_MODEM_RC_handler_step _ _ _ (by rfl)
  · refine HandlerStep.handler_trans ?_ (HandlerStep.handler_emit _ _ (by simp [is_loop_call]))
    refine HandlerStep.handler_trans ?_ (ASSERT_SMTC_MODEM_RC_handler_step _ _ _ (by rfl))
    refine HandlerStep.handler_trans ?_ (HandlerStep.handler_emit _ _ (by simp [is_loop_call]))
    exact ASSERT_SMTC_MODEM_RC_handler_step _ _ _ (by rfl)

theorem handle_event_handler_step (cfg : Config) (a : EventAnswers) (s : State) :
    HandlerStep s (handle_event cfg a s) := by
  unfold handle_event
  dsimp only
  split
  · refine HandlerStep.handler_trans ?_ (ASSERT_SMTC_MODEM_RC_handler_step _ _ _ (by rfl))
    refine HandlerStep.handler_trans ?_ (ASSERT_SMTC_MODEM_RC_handler_step _ _ _ (by rfl))
    refine HandlerStep.handler_trans ?_ (ASSERT_SMTC_MODEM_RC_handler_step _ _ _ (by rfl))
    refine HandlerStep.handler_trans ?_ (provision_credentials_handler_step cfg a _)
    exact HandlerStep.handler_emit _ _ (by simp [is_loop_call, info])
  · refine HandlerStep.handler_trans ?_ (ASSERT_SMTC_MODEM_RC_handler_step _ _ _ (by rfl))
    refine HandlerStep.handler_trans ?_ (send_uplink_moisture_on_port_handler_step _ _ _ _)
    exact HandlerStep.handler_emit _ _ (by simp [is_loop_call, info])
  · refine HandlerStep.handler_trans ?_ (ASSERT_SMTC_MODEM_RC_handler_step _ _ _ (by rfl))
    refine HandlerStep.handler_trans ?_ (send_uplink_moisture_on_port_handler_step _ _ _ _)
    exact HandlerStep.handler_emit _ _ (by simp [is_loop_call, info])
  · exact HandlerStep.handler_emit _ _ (by simp [is_loop_call, info])
  · refine HandlerStep.handler_trans ?_ (HandlerStep.handler_emit _ _ (by simp [is_loop_call]))
    have h2 : HandlerStep s (ASSERT_SMTC_MODEM_RC Call.smtc_modem_get_downlink_data
        a.rc_get_downlink_data
        (s.emit [info (TraceText.event_received SMTC_MODEM_EVENT_DOWNDATA)])) :=
      HandlerStep.handler_trans (HandlerStep.handler_emit _ _ (by simp [is_loop_call, info]))
        (ASSERT_SMTC_MODEM_RC_handler_step _ _ _ (by rfl))
    split
    · obtain ⟨cs, h1, h3⟩ := h2
      exact ⟨cs, h1, h3⟩
    · exact h2
  · exact HandlerStep.handler_emit _ _ (by simp [is_loop_call])
  · split
    · exact HandlerStep.handler_emit _ _ (by simp [is_loop_call, info])
    · exact HandlerStep.handler_emit _ _ (by simp [is_loop_call])
  · split
    · rename_i reboot _ _
      exact ⟨[info (TraceText.event_received (SMTC_MODEM_EVENT_FIRMWARE_MANAGEMENT reboot)),
              Call.smtc_modem_hal_reset_mcu], by simp [State.emit, smtc_modem_hal_reset_mcu],
        by simp [is_loop_call, info]⟩
    · exact HandlerStep.handler_emit _ _ (by simp [is_loop_call, info])
  · split
    · refine HandlerStep.handler_trans ?_ (HandlerStep.handler_emit _ _ (by simp [is_loop_call, info]))
      exact HandlerStep.handler_emit _ _ (by simp [is_loop_call, info])
    · exact HandlerStep.handler_emit _ _ (by simp [is_loop_call, info])
  · split
    · refine HandlerStep.handler_trans ?_ (HandlerStep.handler_emit _ _ (by simp [is_loop_call, info]))
      exact HandlerStep.handler_emit _ _ (by simp [is_loop_call, info])
    · exact HandlerStep.handler_emit _ _ (by simp [is_loop_call, info])
  · split
    · refine HandlerStep.handler_trans ?_ (HandlerStep.handler_emit _ _ (by simp [is_loop_call, info]))
      exact HandlerStep.handler_emit _ _ (by simp [is_loop_call, info])
    · exact HandlerStep.handler_emit _ _ (by simp [is_loop_call, info])
  · exact HandlerStep.handler_emit _ _ (by simp [is_loop_call])
  · exact HandlerStep.handler_emit _ _ (by simp [is_loop_call, info])

theorem check_button_handler_step (cfg : Config) (mask adc : Nat) (rc : smtc_modem_return_code_t)
    (s : State) : HandlerStep s (check_button cfg mask adc rc s) := by
  unfold check_button
  split
  · have h1 : HandlerStep s
        (State.emit { s with user_button_is_press := false } [Call.smtc_modem_get_status STACK_ID]) :=
      ⟨_, rfl, by simp [is_loop_call]⟩
    split
    · exact HandlerStep.handler_trans h1 (send_uplink_moisture_on_port_handler_step _ _ _ _)
    · exact h1
  · exact HandlerStep.handler_refl s

/-! ### Sleep gate -/

theorem is_gate_call_le_loop_call (c : Call) (h : is_loop_call c = false) :
    is_gate_call c = false := by
  cases c <;> simp [is_loop_call, is_gate_call] at h ⊢

theorem HandlerStep.gate_free {s s' : State} (h : HandlerStep s s') : GateFreeStep s s' := by
  obtain ⟨cs, hcs, hno⟩ := h
  exact ⟨cs, hcs, fun c hc => is_gate_call_le_loop_call c (hno c hc)⟩

theorem GateFreeStep.gate_trans {a b c : State} (h1 : GateFreeStep a b)
    (h2 : GateFreeStep b c) : GateFreeStep a c := by
  obtain ⟨xs, hx, hxs⟩ := h1
  obtain ⟨ys, hy, hys⟩ := h2
  refine ⟨xs ++ ys, by rw [hy, hx, List.append_assoc], ?_⟩
  intro c hc
  rcases List.mem_append.mp hc with h | h
  · exact hxs c h
  · exact hys c h

theorem GateFreeStep.gate_emit (s : State) (cs : List Call)
    (h : ∀ c ∈ cs, is_gate_call c = false) : GateFreeStep s (s.emit cs) := ⟨cs, rfl, h⟩

/-- One pass of the callback's loop body issues no sleep-gate HAL call. -/
theorem pass_gate_free (cfg : Config) (a : EventAnswers) (s : State) :
    GateFreeStep s
      (handle_event cfg a (ASSERT_SMTC_MODEM_RC Call.smtc_modem_get_event a.rc_get_event s)) := by
  refine GateFreeStep.gate_trans ?_ (handle_event_handler_step cfg a _).gate_free
  refine GateFreeStep.gate_emit s _ ?_
  intro c hc
  rcases List.mem_cons.mp hc with h1 | h1
  · rw [h1]; rfl
  · exact is_gate_call_le_loop_call c (ASSERT_SMTC_MODEM_RC_lines_handler_step _ c h1)

theorem modem_event_callback_loop_gate_free (cfg : Config) (answers : List EventAnswers) :
    ∀ (s s' : State), modem_event_callback_loop cfg answers s = some s' →
      GateFreeStep s s' := by
  induction answers with
  | nil => intro s s' h; simp [modem_event_callback_loop] at h
  | cons a rest ih =>
    intro s s' h
    have step := pass_gate_free cfg a s
    simp only [modem_event_callback_loop] at h
    split at h
    · cases h; exact step
    · split at h
      · exact GateFreeStep.gate_trans step (ih _ _ h)
      · cases h; exact step

theorem run_engine_gate_free (cfg : Config) (ev : Option (List EventAnswers)) (s s' : State)
    (h : run_engine cfg ev s = some s') : GateFreeStep s s' := by
  unfold run_engine at h
  cases ev with
  | none =>
    simp only [Option.some.injEq] at h
    subst h
    exact GateFreeStep.gate_emit s _ (by simp [is_gate_call])
  | some answers =>
    have h1 : GateFreeStep s (s.emit [Call.smtc_modem_run_engine]) :=
      GateFreeStep.gate_emit s _ (by simp [is_gate_call])
    have h2 : GateFreeStep (s.emit [Call.smtc_modem_run_engine])
        ((s.emit [Call.smtc_modem_run_engine]).emit
          [Call.SMTC_HAL_TRACE Severity.MSG_COLOR TraceText.modem_event_callback]) :=
      GateFreeStep.gate_emit _ _ (by simp [is_gate_call])
    exact GateFreeStep.gate_trans h1
      (GateFreeStep.gate_trans h2 (modem_event_callback_loop_gate_free cfg answers _ _ h))

/-- Nothing before the sleep gate of an iteration touches interrupts masking,
the watchdog or sleep. -/
theorem state_at_gate_gate_free (cfg : Config) (i : IterationInputs) (s g : State)
    (h : state_at_gate cfg i s = some g) : GateFreeStep s g := by
  unfold state_at_gate at h
  have pre : GateFreeStep s (serve_button_irqs i.irqs_before_engine
      (check_button cfg i.status_mask i.adc_value i.rc_request_uplink
        (serve_button_irqs i.irqs_before_check s))) :=
    GateFreeStep.gate_trans (serve_button_irqs_handler_step _ _).gate_free
      (GateFreeStep.gate_trans (check_button_handler_step _ _ _ _ _).gate_free
        (serve_button_irqs_handler_step _ _).gate_free)
  simp only at h
  split at h
  · cases h
  · rename_i s4 h4
    have he := run_engine_gate_free _ _ _ _ h4
    split at h
    · cases h; exact GateFreeStep.gate_trans pre he
    · cases h
      exact GateFreeStep.gate_trans pre
        (GateFreeStep.gate_trans he (serve_button_irqs_handler_step _ _).gate_free)

theorem gate_calls_of_gate_free (cs : List Call) (h : ∀ c ∈ cs, is_gate_call c = false) :
    gate_calls cs = [] := by
  unfold gate_calls
  rw [List.filter_eq_nil_iff]
  intro c hc
  rw [h c hc]
  exact Bool.false_ne_true

theorem gate_calls_sleep_gate (t : Nat) (pending : Bool) (g : State) :
    gate_calls (issued g (sleep_gate t pending g)) =
      gate_sequence g.user_button_is_press pending t := by
  rw [issued_of_trace (sleep_gate_trace t pending g)]
  cases hf : g.user_button_is_press <;> cases pending <;>
    simp [gate_calls, gate_sequence, is_gate_call]

/-- C12, refuted as stated: in an iteration whose engine run handles a
firmware-management event with the reboot-immediately directive, the watchdog
is never reloaded, none of the sleep-gate calls is issued, and the last call
is `smtc_modem_hal_reset_mcu`, not `hal_mcu_enable_irq`. -/
theorem C12_counterexample_reboot_iteration_skips_gate :
    (loop_iteration example_config reboot_iteration State.init).map
        (fun s' => ((issued State.init s').count Call.hal_watchdog_reload,
          gate_calls (issued State.init s'), (issued State.init s').getLast?,
          s'.mcu_reset)) =
      some (0, [], some Call.smtc_modem_hal_reset_mcu, true) := by
  decide

/-- C12, amended: the sleep gate issues `hal_mcu_disable_irq`, then, only when
the flag is false and no interrupt is pending, `hal_watchdog_reload`
immediately followed by `hal_mcu_set_sleep_for_ms`, then
`hal_watchdog_reload`, then `hal_mcu_enable_irq` (with the pending-interrupt
query of the stack after the first call when the flag is false).  In every
iteration that reaches its gate, that is, in which the engine's callback has
not reset the MCU, these are the only interrupt-masking, watchdog and sleep
calls, the watchdog is reloaded at least once, and the last call is
`hal_mcu_enable_irq`.  An iteration in which the MCU is reset stops before the
gate and issues none of these calls. -/
theorem C12_sleep_gate_call_sequence (cfg : Config) (i : IterationInputs) (s g : State)
    (h : state_at_gate cfg i s = some g) :
    (∀ (t : Nat) (pending : Bool) (g1 : State),
      issued g1 (sleep_gate t pending g1) =
        Call.hal_mcu_disable_irq ::
          ((if g1.user_button_is_press = false then
              Call.smtc_modem_is_irq_flag_pending ::
                (if pending = false then
                  [Call.hal_watchdog_reload,
                   Call.hal_mcu_set_sleep_for_ms
                     (MIN (t % 2 ^ 32) WATCHDOG_RELOAD_PERIOD_MS)]
                 else [])
            else []) ++ [Call.hal_watchdog_reload, Call.hal_mcu_enable_irq]) ∧
      gate_calls (issued g1 (sleep_gate t pending g1)) =
        Call.hal_mcu_disable_irq ::
          ((if g1.user_button_is_press = false ∧ pending = false then
              [Call.hal_watchdog_reload,
               Call.hal_mcu_set_sleep_for_ms (MIN (t % 2 ^ 32) WATCHDOG_RELOAD_PERIOD_MS)]
            else []) ++ [Call.hal_watchdog_reload, Call.hal_mcu_enable_irq])) ∧
    (g.mcu_reset = false →
      ∃ s', loop_iteration cfg i s = some s' ∧
        gate_calls (issued s s') =
          gate_sequence g.user_button_is_press i.irq_flag_pending i.sleep_time_ms ∧
        (issued s s').getLast? = some Call.hal_mcu_enable_irq ∧
        1 ≤ (issued s s').count Call.hal_watchdog_reload) ∧
    (g.mcu_reset = true →
      loop_iteration cfg i s = some g ∧ gate_calls (issued s g) = []) := by
  obtain ⟨cs, hcs, hno⟩ := state_at_gate_gate_free cfg i s g h
  refine ⟨?_, ?_, ?_⟩
  · intro t pending g1
    exact ⟨issued_of_trace (sleep_gate_trace t pending g1), gate_calls_sleep_gate t pending g1⟩
  · intro hr
    have hloop : loop_iteration cfg i s =
        some (sleep_gate i.sleep_time_ms i.irq_flag_pending g) := by
      simp [loop_iteration, h, hr]
    have hg := sleep_gate_trace i.sleep_time_ms i.irq_flag_pending g
    have hiss : issued s (sleep_gate i.sleep_time_ms i.irq_flag_pending g) =
        cs ++ issued g (sleep_gate i.sleep_time_ms i.irq_flag_pending g) := by
      rw [issued_of_trace hg]
      rw [hcs, List.append_assoc] at hg
      rw [issued_of_trace hg]
    refine ⟨_, hloop, ?_, ?_, ?_⟩
    · rw [hiss]
      unfold gate_calls
      rw [List.filter_append]
      have h1 := gate_calls_of_gate_free cs hno
      have h2 := gate_calls_sleep_gate i.sleep_time_ms i.irq_flag_pending g
      unfold gate_calls at h1 h2
      rw [h1, h2, List.nil_append]
    · rw [hiss, issued_of_trace hg]
      cases hf : g.user_button_is_press <;> cases hp : i.irq_flag_pending <;> simp
    · rw [hiss, issued_of_trace hg, List.count_append]
      cases hf : g.user_button_is_press <;> cases hp : i.irq_flag_pending <;>
        simp [List.count_cons]
  · intro hr
    refine ⟨by simp [loop_iteration, h, hr], ?_⟩
    rw [issued_of_trace hcs]
    exact gate_calls_of_gate_free cs hno

/-- Witness of C12 (amended): a quiet iteration from the initial state; the
engine recommends 30000 ms. -/
theorem C12_sleep_gate_call_sequence_witness :
    ∃ s', loop_iteration example_config (quiet_iteration 30000) State.init = some s' ∧
      gate_calls (issued State.init s') =
        gate_sequence false false 30000 ∧
      (issued State.init s').getLast? = some Call.hal_mcu_enable_irq ∧
      1 ≤ (issued State.init s').count Call.hal_watchdog_reload :=
  (C12_sleep_gate_call_sequence example_config (quiet_iteration 30000) State.init
    (State.init.emit [Call.smtc_modem_run_engine]) (by decide)).2.1 (by decide)

/-! ### Draining the event queue -/

theorem loop_body_pending (cfg : Config) (a : EventAnswers) (n : Nat) (s : State) :
    loop_body cfg { a with event_pending_count := n } s = loop_body cfg a s := rfl

/-- Every handler but the one of a reboot-immediately firmware-management
event leaves the reset latch alone. -/
theorem handle_event_mcu_reset (cfg : Config) (a : EventAnswers) (s : State)
    (h : a.event_type ≠ SMTC_MODEM_EVENT_FIRMWARE_MANAGEMENT true) :
    (handle_event cfg a s).mcu_reset = s.mcu_reset := by
  unfold handle_event
  split
  · simp [ASSERT_SMTC_MODEM_RC, provision_credentials_mcu_reset]
  · simp [ASSERT_SMTC_MODEM_RC, send_uplink_moisture_on_port_mcu_reset]
  · simp [ASSERT_SMTC_MODEM_RC, send_uplink_moisture_on_port_mcu_reset]
  · simp
  · dsimp only
    cases a.downlink <;> simp [ASSERT_SMTC_MODEM_RC]
  · simp
  · split <;> simp
  · rename_i reboot heq
    cases reboot with
    | true => exact absurd heq h
    | false => simp
  · split <;> simp
  · split <;> simp
  · split <;> simp
  · simp
  · simp

theorem loop_body_mcu_reset (cfg : Config) (a : EventAnswers) (s : State)
    (h : a.event_type ≠ SMTC_MODEM_EVENT_FIRMWARE_MANAGEMENT true) :
    (loop_body cfg a s).mcu_reset = s.mcu_reset := by
  unfold loop_body
  rw [handle_event_mcu_reset cfg a _ h]
  rfl

theorem fetches_append (xs ys : List Call) : fetches (xs ++ ys) = fetches xs + fetches ys := by
  simp [fetches]

theorem fetches_of_handler_calls (cs : List Call) (h : ∀ c ∈ cs, is_loop_call c = false) :
    fetches cs = 0 := by
  unfold fetches
  rw [List.count_eq_zero]
  intro hmem
  have := h _ hmem
  simp [is_loop_call] at this

/-- One pass of the loop body fetches exactly once. -/
theorem loop_body_fetches (cfg : Config) (a : EventAnswers) (s : State) :
    ∃ cs, (loop_body cfg a s).trace = s.trace ++ cs ∧ fetches cs = 1 := by
  unfold loop_body
  obtain ⟨cs, hcs, hno⟩ := handle_event_handler_step cfg a
    (ASSERT_SMTC_MODEM_RC Call.smtc_modem_get_event a.rc_get_event s)
  refine ⟨(Call.smtc_modem_get_event :: ASSERT_SMTC_MODEM_RC_lines a.rc_get_event) ++ cs,
    by rw [hcs]; simp [ASSERT_SMTC_MODEM_RC], ?_⟩
  have e : Call.smtc_modem_get_event :: ASSERT_SMTC_MODEM_RC_lines a.rc_get_event =
      [Call.smtc_modem_get_event] ++ ASSERT_SMTC_MODEM_RC_lines a.rc_get_event := rfl
  rw [fetches_append, e, fetches_append, fetches_of_handler_calls cs hno,
    fetches_of_handler_calls _ (ASSERT_SMTC_MODEM_RC_lines_handler_step a.rc_get_event)]
  rfl

theorem foldl_loop_body_fetches (cfg : Config) (q : List EventAnswers) :
    ∀ s : State, ∃ cs, (q.foldl (fun st a => loop_body cfg a st) s).trace = s.trace ++ cs ∧
      fetches cs = q.length := by
  induction q with
  | nil => intro s; exact ⟨[], by simp, rfl⟩
  | cons a rest ih =>
    intro s
    obtain ⟨cs1, h1, f1⟩ := loop_body_fetches cfg a s
    obtain ⟨cs2, h2, f2⟩ := ih (loop_body cfg a s)
    refine ⟨cs1 ++ cs2, ?_, ?_⟩
    · rw [List.foldl_cons, h2, h1, List.append_assoc]
    · rw [fetches_append, f1, f2, List.length_cons]
      omega

/-- On the answers of a queue of at most 256 events without a reboot
directive, the loop returns the state reached by running the body once per
event, in queue order. -/
theorem modem_event_callback_loop_queue (cfg : Config) (q : List EventAnswers) :
    ∀ s : State, q ≠ [] → q.length ≤ 256 → s.mcu_reset = false →
      (∀ a ∈ q, a.event_type ≠ SMTC_MODEM_EVENT_FIRMWARE_MANAGEMENT true) →
      modem_event_callback_loop cfg (queue_answers q) s =
          some (q.foldl (fun st a => loop_body cfg a st) s) ∧
        (q.foldl (fun st a => loop_body cfg a st) s).mcu_reset = false := by
  induction q with
  | nil => intro s hne; exact absurd rfl hne
  | cons a rest ih =>
    intro s _ hlen hs hq
    have hr : (loop_body cfg a s).mcu_reset = false := by
      rw [loop_body_mcu_reset cfg a s (hq a (List.mem_cons_self _ _))]; exact hs
    have hr2 : (handle_event cfg a
        (ASSERT_SMTC_MODEM_RC Call.smtc_modem_get_event a.rc_get_event s)).mcu_reset = false := hr
    have hbody : handle_event cfg { a with event_pending_count := rest.length }
        (ASSERT_SMTC_MODEM_RC Call.smtc_modem_get_event a.rc_get_event s) =
        loop_body cfg a s := rfl
    simp only [queue_answers, modem_event_callback_loop, List.foldl_cons, hbody, hr]
    rw [List.length_cons] at hlen
    cases rest with
    | nil => simp [queue_answers, hr]
    | cons b rest2 =>
      have hpos : (b :: rest2).length % 2 ^ 8 > 0 := by
        rw [List.length_cons] at hlen ⊢
        omega
      have := ih (loop_body cfg a s) (List.cons_ne_nil _ _) (by omega) hr
        (fun x hx => hq x (List.mem_cons_of_mem _ hx))
      simp only [Bool.false_eq_true, if_false, hpos, if_true]
      exact this

/-- The loop does not return before the last event of the queue has been
fetched: on any proper prefix of the answers it is still asking. -/
theorem modem_event_callback_loop_prefix (cfg : Config) (q : List EventAnswers) :
    ∀ (k : Nat) (s : State), k < q.length → q.length ≤ 256 → s.mcu_reset = false →
      (∀ a ∈ q, a.event_type ≠ SMTC_MODEM_EVENT_FIRMWARE_MANAGEMENT true) →
      modem_event_callback_loop cfg ((queue_answers q).take k) s = none := by
  induction q with
  | nil => intro k s hk; simp at hk
  | cons a rest ih =>
    intro k s hk hlen hs hq
    cases k with
    | zero => simp [modem_event_callback_loop]
    | succ k1 =>
      have hr : (loop_body cfg a s).mcu_reset = false := by
        rw [loop_body_mcu_reset cfg a s (hq a (List.mem_cons_self _ _))]; exact hs
      have hbody : handle_event cfg { a with event_pending_count := rest.length }
          (ASSERT_SMTC_MODEM_RC Call.smtc_modem_get_event a.rc_get_event s) =
          loop_body cfg a s := rfl
      rw [List.length_cons] at hk hlen
      have hpos : rest.length % 2 ^ 8 > 0 := by omega
      simp only [queue_answers, List.take_succ_cons, modem_event_callback_loop, hbody, hr,
        Bool.false_eq_true, if_false, hpos, if_true]
      exact ih k1 _ (by omega) (by omega) hr (fun x hx => hq x (List.mem_cons_of_mem _ hx))

theorem is_drain_queue_answers (q : List EventAnswers) :
    q ≠ [] → q.length ≤ 256 → is_drain (queue_answers q) = true := by
  induction q with
  | nil => intro h; exact absurd rfl h
  | cons a rest ih =>
    intro _ hlen
    rw [List.length_cons] at hlen
    cases rest with
    | nil => simp [queue_answers, is_drain]
    | cons b rest2 =>
      have hpos : (b :: rest2).length % 2 ^ 8 > 0 := by
        rw [List.length_cons] at hlen ⊢
        omega
      have := ih (List.cons_ne_nil _ _) (by omega)
      simp only [queue_answers, is_drain, hpos, if_true] at this ⊢
      exact this

/-- C11, refuted as stated: on a queue of two events whose first is a
firmware-management event with the reboot-immediately directive, the fetches
report 1 and then 0 events pending, yet one run of `modem_event_callback`
fetches once only, resets the MCU while handling the first event, and never
handles the Alarm event queued behind it (its only stack call is the one
fetch). -/
theorem C11_counterexample_reboot_event_ends_drain :
    reboot_then_alarm.length = 2 ∧
      (queue_answers reboot_then_alarm).map EventAnswers.event_pending_count = [1, 0] ∧
      (modem_event_callback example_config (queue_answers reboot_then_alarm) State.init).map
          (fun s' => (fetches (issued State.init s'), s'.mcu_reset,
            stack_calls (issued State.init s'))) =
        some (1, true, [Call.smtc_modem_get_event]) := by
  decide

/-- C11, amended: for a stack queue of `n >= 1` events (at most 256, so that
every count of events still queued fits the `uint8_t` the stack writes), none
of which is a firmware-management event with the reboot-immediately
directive, one run of `modem_event_callback` returns; the state it returns is
the one reached by running the loop body once per event in queue order; it
fetches exactly `n` times; it does not return before the last fetch, the only
one that reports zero events pending; and the handler of an event of unknown
kind only prints one line, so the loop goes on to the events behind it. -/
theorem C11_drain_queue_in_order (cfg : Config) (q : List EventAnswers) (s : State)
    (hn : 1 ≤ q.length) (h256 : q.length ≤ 256) (hs : s.mcu_reset = false)
    (hq : ∀ a ∈ q, a.event_type ≠ SMTC_MODEM_EVENT_FIRMWARE_MANAGEMENT true) :
    is_drain (queue_answers q) = true ∧
      (∃ s', modem_event_callback cfg (queue_answers q) s = some s' ∧
        s' = q.foldl (fun st a => loop_body cfg a st)
          (s.emit [Call.SMTC_HAL_TRACE Severity.MSG_COLOR TraceText.modem_event_callback]) ∧
        fetches (issued s s') = q.length) ∧
      (∀ k, k < q.length →
        modem_event_callback cfg ((queue_answers q).take k) s = none) ∧
      (∀ (n : Nat) (a : EventAnswers) (st : State), a.event_type = OTHER n →
        handle_event cfg a st =
          st.emit [Call.SMTC_HAL_TRACE Severity.ERROR (TraceText.unknown_event n)]) := by
  have hne : q ≠ [] := by
    intro h
    rw [h] at hn
    simp at hn
  refine ⟨is_drain_queue_answers q hne h256, ?_, ?_, ?_⟩
  · obtain ⟨hloop, _⟩ := modem_event_callback_loop_queue cfg q
      (s.emit [Call.SMTC_HAL_TRACE Severity.MSG_COLOR TraceText.modem_event_callback])
      hne h256 hs hq
    refine ⟨_, hloop, rfl, ?_⟩
    obtain ⟨cs, hcs, hf⟩ := foldl_loop_body_fetches cfg q
      (s.emit [Call.SMTC_HAL_TRACE Severity.MSG_COLOR TraceText.modem_event_callback])
    rw [emit_trace, List.append_assoc] at hcs
    rw [issued_of_trace hcs, fetches_append, hf]
    simp [fetches]
  · intro k hk
    exact modem_event_callback_loop_prefix cfg q k _ hk h256 hs hq
  · intro n a st h
    unfold handle_event
    rw [h]

/-- Witness of C11 (amended): a queue of three events, the first of unknown
kind. -/
theorem C11_drain_queue_in_order_witness :
    ∃ s', modem_event_callback example_config (queue_answers unknown_then_alarm_then_txdone)
          State.init = some s' ∧
      s' = unknown_then_alarm_then_txdone.foldl (fun st a => loop_body example_config a st)
        (State.init.emit
          [Call.SMTC_HAL_TRACE Severity.MSG_COLOR TraceText.modem_event_callback]) ∧
      fetches (issued State.init s') = unknown_then_alarm_then_txdone.length :=
  (C11_drain_queue_in_order example_config unknown_then_alarm_then_txdone State.init
    (by decide) (by decide) (by decide) (by decide)).2.1

end RelayTx
